import Mathlib

/-!
# Verification of the tox DHT node core (`src/toxcore`)

Shallow embedding of the DHT server (`src/toxcore/dht/server/mod.rs`), the
onion client fragment (`src/toxcore/onion/client/mod.rs`) and the utility
module (`src/toxcore/utils.rs`), together with models of the repository
components that are referenced but whose files are not part of the sources
(request queue, kbucket, dht node, dht friend, ping sender, hole punching);
those models are written from the natural-language specification and each of
them carries a doc comment starting with `Modelled from the spec:`.

Modelling conventions:

* machine integers (`u32`, `u64`, `usize`) are `Nat`, reduced `% 2 ^ w` where
  the width matters (the `random_u32` / `random_u64` / `random_usize` draws);
* `Instant` is a `Nat` tick count; `t.elapsed()` is `now - t` with the
  current time `now` threaded explicitly; `Duration::from_secs n` is `n`;
* randomness is an explicit stream of draws (`List Nat`) threaded through
  every function that consumes randomness;
* fallible operations return `Except String Unit`, with the error strings of
  the source (apostrophes dropped);
* authenticated encryption is idealized: a ciphertext is the pair of the key
  it was produced under and its plaintext, and decryption succeeds exactly
  when it is attempted with the same key.  `precompute(pk, sk)` is modelled
  as the plain pair `(pk, sk)`; no handler in the sources ever needs the
  Diffie-Hellman symmetry of the real `precompute`, they only recompute the
  same shared secret `precompute(packet.pk, self.sk)` that checking and
  replying both use;
* the side effects of the `futures 0.1` values built by the server are
  modelled eagerly: each function returns its state updates together with
  the list of packets it emits on the UDP channel (and on the TCP onion
  sink), and `future::join_all` fails exactly when one of the joined
  futures fails.
-/

namespace Tox

/-! ## Addresses -/

/-- An IP address: family flag (`v6`), numeric value, and a global-routability
flag.  Modelled from the spec: `ip_port.rs` is not among the sources, so
whether an address is globally routable (`IsGlobal::is_global`) is carried as
an abstract boolean field of the address. -/
structure IpAddr where
  v6 : Bool
  addr : Nat
  global : Bool
  deriving DecidableEq, Repr

/-- `Ipv4Addr::to_ipv6_mapped`: the IPv4-mapped IPv6 address with the same
numeric value. -/
def IpAddr.to_ipv6_mapped (ip : IpAddr) : IpAddr :=
  { ip with v6 := true }

/-- A socket address: IP address plus UDP port. -/
structure SocketAddr where
  ip : IpAddr
  port : Nat
  deriving DecidableEq, Repr

/-- `SocketAddr::is_ipv6`. -/
def SocketAddr.is_ipv6 (a : SocketAddr) : Bool := a.ip.v6

/-- `SocketAddr::is_ipv4`. -/
def SocketAddr.is_ipv4 (a : SocketAddr) : Bool := !a.ip.v6

/-- Transport protocol marker stored in an `IpPort` (onion return payload). -/
inductive ProtocolType where
  | udp
  | tcp
  deriving DecidableEq, Repr

/-- `IpPort`: protocol kind, IP address and port (onion module). -/
structure IpPort where
  protocol : ProtocolType
  ip_addr : IpAddr
  port : Nat
  deriving DecidableEq, Repr

/-- `IpPort::from_udp_saddr`. -/
def IpPort.from_udp_saddr (a : SocketAddr) : IpPort :=
  { protocol := ProtocolType.udp, ip_addr := a.ip, port := a.port }

/-- `IpPort::to_saddr`. -/
def IpPort.to_saddr (ipp : IpPort) : SocketAddr :=
  { ip := ipp.ip_addr, port := ipp.port }

/-! ## Crypto model -/

/-- Public keys are abstract numbers (32-byte keys in the source). -/
abbrev PublicKey := Nat

/-- A precomputed shared secret.  Idealized as the pair of its two inputs:
the handlers only ever compare the secret a ciphertext was built under with
the secret `precompute(packet.pk, self.sk)` they recompute, so the
Diffie-Hellman symmetry of the real `precompute` is never needed. -/
abbrev PrecomputedKey := Nat × Nat

/-- `precompute(pk, sk)` (crypto core adapter). -/
def precompute (pk : Nat) (sk : Nat) : PrecomputedKey := (pk, sk)

/-- An authenticated ciphertext: the key it was produced under together with
its plaintext.  Decryption with the right key recovers the plaintext;
decryption with any other key fails (authenticated encryption, idealized). -/
structure Enc (α : Type) where
  key : PrecomputedKey
  msg : α
  deriving DecidableEq, Repr

/-- Decrypt an `Enc` ciphertext with a candidate key. -/
def Enc.open_with {α : Type} (e : Enc α) (k : PrecomputedKey) (err : String) :
    Except String α :=
  if e.key = k then Except.ok e.msg else Except.error err

/-! ## Randomness -/

/-- `random_u32()` : next draw of the stream, reduced to 32 bits. -/
def random_u32 (rng : List Nat) : Nat × List Nat :=
  (rng.headD 0 % 2 ^ 32, rng.tail)

/-- `random_u64()` : next draw of the stream, reduced to 64 bits. -/
def random_u64 (rng : List Nat) : Nat × List Nat :=
  (rng.headD 0 % 2 ^ 64, rng.tail)

/-- `random_usize()` : next draw of the stream, reduced to 64 bits. -/
def random_usize (rng : List Nat) : Nat × List Nat :=
  (rng.headD 0 % 2 ^ 64, rng.tail)

/-- `utils::gen_ping_id`: draw `random_u64()` until it is non-zero.  The
source loops unboundedly; on the (probability-zero) all-zero stream the model
returns 1 once the stream is exhausted so that the definition is total. -/
def gen_ping_id : List Nat → Nat × List Nat
  | [] => (1, [])
  | r :: rest =>
    if r % 2 ^ 64 = 0 then gen_ping_id rest else (r % 2 ^ 64, rest)

/-- `utils::random_element`: a random element of a slice, `None` on `[]`. -/
def random_element {α : Type} (rng : List Nat) (l : List α) :
    Option α × List Nat :=
  if l.isEmpty then (none, rng)
  else
    let (n, rng) := random_usize rng
    (l.get? (n % l.length), rng)

end Tox

namespace Tox

/-! ## Nodes and buckets -/

/-- `PackedNode` = socket address + public key. -/
structure PackedNode where
  saddr : SocketAddr
  pk : PublicKey
  deriving DecidableEq, Repr

/-- Inhabitant of `PackedNode` used as the (provably never returned) default
of in-range list indexing. -/
def dummy_node : PackedNode :=
  { saddr := { ip := { v6 := false, addr := 0, global := false }, port := 0 },
    pk := 0 }

/-- `DhtNode`, a close-list entry.  Modelled from the spec: `dht_node.rs` is
not among the sources.  The spec extends `PackedNode` with optional per-family
sockets and response/ping timestamps; the model keeps one current socket
address (the claims settled here never depend on a node holding both an IPv4
and an IPv6 socket at once) together with the three timestamps. -/
structure DhtNode where
  pk : PublicKey
  saddr : SocketAddr
  last_resp_time_v4 : Option Nat
  last_resp_time_v6 : Option Nat
  last_ping_req_time : Option Nat
  deriving DecidableEq, Repr

/-- Modelled from the spec: staleness threshold of `DhtNode::is_bad`
("a configurable staleness threshold"); its value is irrelevant to the
claims. -/
def BAD_NODE_TIMEOUT : Nat := 182

/-- Modelled from the spec: a node is bad if neither family has responded
within the staleness threshold. -/
def DhtNode.is_bad (n : DhtNode) (now : Nat) : Bool :=
  (match n.last_resp_time_v4 with
   | none => true
   | some t => BAD_NODE_TIMEOUT ≤ now - t) &&
  (match n.last_resp_time_v6 with
   | none => true
   | some t => BAD_NODE_TIMEOUT ≤ now - t)

/-- `DhtNode` → `PackedNode` (the `.into()` conversions of the source). -/
def DhtNode.to_packed (n : DhtNode) : PackedNode :=
  { saddr := n.saddr, pk := n.pk }

/-- `PackedNode` → `DhtNode` with no recorded responses yet. -/
def DhtNode.from_packed (n : PackedNode) : DhtNode :=
  { pk := n.pk, saddr := n.saddr, last_resp_time_v4 := none,
    last_resp_time_v6 := none, last_ping_req_time := none }

/-- Modelled from the spec: `DhtNode::get_socket_addr(is_ipv6_mode)` returns
the socket address usable in the given mode — any address in IPv6 mode, only
an IPv4 address in IPv4 mode. -/
def DhtNode.get_socket_addr (n : DhtNode) (is_ipv6_mode : Bool) :
    Option SocketAddr :=
  if !is_ipv6_mode && n.saddr.is_ipv6 then none else some n.saddr

/-- XOR distance between two public keys. -/
def key_distance (a b : PublicKey) : Nat := a ^^^ b

/-- `Bucket`: capacity-bounded sequence of entries ordered by XOR distance to
a reference key.  Modelled from the spec: `kbucket.rs` is not among the
sources; §4.4 of the spec gives the `try_add` algorithm embedded below. -/
structure Bucket where
  capacity : Nat
  nodes : List DhtNode
  deriving DecidableEq, Repr

/-- Default `Bucket` capacity (`Bucket::new(None)`). -/
def BUCKET_DEFAULT_SIZE : Nat := 8

/-- `Bucket::new`: empty bucket with the given or default capacity. -/
def Bucket.new (cap : Option Nat) : Bucket :=
  { capacity := cap.getD BUCKET_DEFAULT_SIZE, nodes := [] }

/-- Insert a node preserving ascending XOR distance from `ref`. -/
def bucket_insert_sorted (ref : PublicKey) (n : DhtNode) :
    List DhtNode → List DhtNode
  | [] => [n]
  | m :: rest =>
    if key_distance ref n.pk < key_distance ref m.pk then n :: m :: rest
    else m :: bucket_insert_sorted ref n rest

/-- Modelled from the spec (§4.4): `Bucket::try_add(ref, node)`.  Rejects the
reference key itself; overwrites the address of an entry with the same PK;
inserts in distance order while capacity remains; otherwise replaces the last
(farthest) entry when the candidate is closer; `true` iff the node was
inserted or overwrote an entry. -/
def Bucket.try_add (b : Bucket) (ref : PublicKey) (n : PackedNode) :
    Bucket × Bool :=
  if n.pk = ref then (b, false)
  else if b.nodes.any (fun d => d.pk = n.pk) then
    ({ b with nodes :=
        b.nodes.map (fun d => if d.pk = n.pk then { d with saddr := n.saddr } else d) },
     true)
  else if b.nodes.length < b.capacity then
    ({ b with nodes := bucket_insert_sorted ref (DhtNode.from_packed n) b.nodes },
     true)
  else
    match b.nodes.getLast? with
    | none => (b, false)
    | some last =>
      if key_distance ref n.pk < key_distance ref last.pk then
        ({ b with nodes :=
            bucket_insert_sorted ref (DhtNode.from_packed n) b.nodes.dropLast },
         true)
      else (b, false)

/-- `Bucket::to_packed`. -/
def Bucket.to_packed (b : Bucket) : List PackedNode :=
  b.nodes.map DhtNode.to_packed

/-- `Kbucket`, the close list.  Modelled from the spec: `kbucket.rs` is not
among the sources.  The 128 distance-indexed buckets are modelled as a single
distance-ordered bucket with the aggregate capacity; none of the claims
settled here depends on the bucket partition, only on membership, staleness
and the `get_closest` selection. -/
structure Kbucket where
  pk : PublicKey
  is_ipv6_mode : Bool
  bucket : Bucket
  deriving DecidableEq, Repr

/-- `Kbucket::new`: empty close list for the owner key (aggregate capacity of
the 128 × 8 partitioned table). -/
def Kbucket.new (pk : PublicKey) : Kbucket :=
  { pk := pk, is_ipv6_mode := false, bucket := Bucket.new (some 1024) }

/-- Modelled from the spec (§4.4): `Kbucket::try_add` delegates to the bucket
with the owner key as reference; the owner key itself is rejected. -/
def Kbucket.try_add (kb : Kbucket) (n : PackedNode) : Kbucket × Bool :=
  let (b, added) := kb.bucket.try_add kb.pk n
  ({ kb with bucket := b }, added)

/-- `Kbucket::get_node`. -/
def Kbucket.get_node (kb : Kbucket) (pk : PublicKey) : Option DhtNode :=
  kb.bucket.nodes.find? (fun d => d.pk = pk)

/-- `Kbucket::get_node_mut` as a map over the stored entries. -/
def Kbucket.modify_node (kb : Kbucket) (pk : PublicKey)
    (f : DhtNode → DhtNode) : Kbucket :=
  let ns := kb.bucket.nodes.map (fun d => if d.pk = pk then f d else d)
  { kb with bucket := { kb.bucket with nodes := ns } }

/-- Modelled from the spec (§4.4): `Kbucket::get_closest(target, only_global)`
sorts the stored entries by XOR distance from the target, skips entries whose
address is not usable under the `only_global` filter, and returns at most 4. -/
def Kbucket.get_closest (kb : Kbucket) (target : PublicKey)
    (only_global : Bool) : List PackedNode :=
  let usable := kb.bucket.nodes.filter (fun d => !only_global || d.saddr.ip.global)
  let sorted :=
    usable.foldl (fun acc d => bucket_insert_sorted target d acc) []
  (sorted.map DhtNode.to_packed).take 4

/-! ## Request queue -/

/-- One entry of the request queue. -/
structure QueueEntry where
  pk : PublicKey
  id : Nat
  time : Nat
  deriving DecidableEq, Repr

/-- `RequestQueue`.  Modelled from the spec (§4.3): `request_queue.rs` is not
among the sources.  Maps non-zero 64-bit ping ids to `(peer_pk, issued_at)`
with TTL eviction after `timeout` seconds. -/
structure RequestQueue where
  timeout : Nat
  entries : List QueueEntry
  deriving DecidableEq, Repr

/-- Modelled from the spec: `RequestQueue::new_ping_id(peer_pk)` draws a
non-zero random id (`gen_ping_id`) and records it with the issue time. -/
def RequestQueue.new_ping_id (q : RequestQueue) (pk : PublicKey) (now : Nat)
    (rng : List Nat) : RequestQueue × Nat × List Nat :=
  let (id, rng) := gen_ping_id rng
  ({ q with entries := q.entries ++ [{ pk := pk, id := id, time := now }] },
   id, rng)

/-- Modelled from the spec: `RequestQueue::check_ping_id(peer_pk, id)` is
`true` iff an unexpired entry matches both the peer and the id; a matching
entry is consumed. -/
def RequestQueue.check_ping_id (q : RequestQueue) (pk : PublicKey) (id : Nat)
    (now : Nat) : Bool × RequestQueue :=
  if q.entries.any (fun e => e.pk = pk && e.id = id && now - e.time ≤ q.timeout)
  then (true,
        { q with entries := q.entries.filter (fun e => !(e.pk = pk && e.id = id)) })
  else (false, q)

/-- Modelled from the spec: `RequestQueue::clear_timed_out` evicts entries
older than the timeout. -/
def RequestQueue.clear_timed_out (q : RequestQueue) (now : Nat) : RequestQueue :=
  { q with entries := q.entries.filter (fun e => now - e.time ≤ q.timeout) }

end Tox

namespace Tox

/-! ## Constants (`dht/server/mod.rs`) -/

/-- Number of NodesRequest sending times to find close nodes. -/
def MAX_BOOTSTRAP_TIMES : Nat := 5

/-- Interval in seconds of sending NatPingRequest packet. -/
def NAT_PING_REQ_INTERVAL : Nat := 3

/-- How often the onion key should be refreshed (seconds). -/
def ONION_REFRESH_KEY_INTERVAL : Nat := 7200

/-- Interval in seconds for the random NodesRequest. -/
def NODES_REQ_INTERVAL : Nat := 20

/-- Interval in seconds for ping. -/
def PING_INTERVAL : Nat := 60

/-- Ping timeout in seconds. -/
def PING_TIMEOUT : Nat := 5

/-- Modelled from the spec: `NAT_PING_PUNCHING_INTERVAL` lives in
`hole_punching.rs`, which is not among the sources; the spec gives the NAT
ping request interval as 3 s. -/
def NAT_PING_PUNCHING_INTERVAL : Nat := 3

/-! ## Hole punching and friends -/

/-- Per-friend hole-punch state.  Modelled from the spec: `hole_punching.rs`
is not among the sources; §3 of the spec lists these fields (the strategy and
candidate-address bookkeeping is not needed by any claim). -/
structure HolePunch where
  ping_id : Nat
  last_send_ping_time : Option Nat
  last_recv_ping_time : Nat
  is_punching_done : Bool
  deriving DecidableEq, Repr

/-- Modelled from the spec: `HolePunch::try_nat_punch` advances the punching
strategy; none of the claims settled here depends on the strategy state, so
the model leaves the hole-punch record unchanged. -/
def HolePunch.try_nat_punch (h : HolePunch) : HolePunch := h

/-- `DhtFriend`.  Modelled from the spec: `dht_friend.rs` is not among the
sources; a friend record holds the friend key, a close-nodes bucket of
candidates near that key, the hole-punch state and the last nodes-request
time. -/
structure DhtFriend where
  pk : PublicKey
  close_nodes : Bucket
  hole_punch : HolePunch
  last_nodes_req_time : Nat
  deriving DecidableEq, Repr

/-- Modelled from the spec: `DhtFriend::add_to_close` offers a node to the
friend close-nodes bucket with the friend key as reference. -/
def DhtFriend.add_to_close (f : DhtFriend) (n : PackedNode) : DhtFriend :=
  { f with close_nodes := (f.close_nodes.try_add f.pk n).1 }

/-- Modelled from the spec: `DhtFriend::get_addrs_of_clients` collects the
socket addresses of the friend close nodes usable in the current mode. -/
def DhtFriend.get_addrs_of_clients (f : DhtFriend) (is_ipv6_mode : Bool) :
    List SocketAddr :=
  f.close_nodes.nodes.filterMap (fun n => n.get_socket_addr is_ipv6_mode)

/-- `PingSender`.  Modelled from the spec: `ping_sender.rs` is not among the
sources; a small queue of candidate neighbours to which PingRequests are
batched. -/
structure PingSender where
  nodes : List PackedNode
  deriving DecidableEq, Repr

/-- Modelled from the spec: `PingSender::try_add` queues a candidate (deduplicated);
it sends nothing by itself and its future always succeeds. -/
def PingSender.try_add (p : PingSender) (n : PackedNode) : PingSender :=
  if p.nodes.contains n then p else { p with nodes := p.nodes ++ [n] }

/-! ## Packets -/

/-- `PingRequestPayload`. -/
structure PingRequestPayload where
  id : Nat
  deriving DecidableEq, Repr

/-- `PingResponsePayload`. -/
structure PingResponsePayload where
  id : Nat
  deriving DecidableEq, Repr

/-- `NodesRequestPayload`. -/
structure NodesRequestPayload where
  pk : PublicKey
  id : Nat
  deriving DecidableEq, Repr

/-- `NodesResponsePayload`. -/
structure NodesResponsePayload where
  nodes : List PackedNode
  id : Nat
  deriving DecidableEq, Repr

/-- `NatPingRequest`. -/
structure NatPingRequest where
  id : Nat
  deriving DecidableEq, Repr

/-- `NatPingResponse`. -/
structure NatPingResponse where
  id : Nat
  deriving DecidableEq, Repr

/-- `DhtRequestPayload`: inner payload of a `DhtRequest`. -/
inductive DhtRequestPayload where
  | NatPingRequest (p : NatPingRequest)
  | NatPingResponse (p : NatPingResponse)
  | DhtPkAnnounce
  deriving DecidableEq, Repr

/-- `PingRequest` packet: sender public key + encrypted payload. -/
structure PingRequest where
  pk : PublicKey
  payload : Enc PingRequestPayload
  deriving DecidableEq, Repr

/-- `PingResponse` packet. -/
structure PingResponse where
  pk : PublicKey
  payload : Enc PingResponsePayload
  deriving DecidableEq, Repr

/-- `NodesRequest` packet. -/
structure NodesRequest where
  pk : PublicKey
  payload : Enc NodesRequestPayload
  deriving DecidableEq, Repr

/-- `NodesResponse` packet. -/
structure NodesResponse where
  pk : PublicKey
  payload : Enc NodesResponsePayload
  deriving DecidableEq, Repr

/-- `DhtRequest` packet: receiver key, sender key, encrypted payload. -/
structure DhtRequest where
  rpk : PublicKey
  spk : PublicKey
  payload : Enc DhtRequestPayload
  deriving DecidableEq, Repr

/-- `OnionReturn`: opaque blob symmetrically encrypted under the server
symmetric key, carrying the previous hop and optionally an inner return. -/
inductive OnionReturn where
  | mk (key : Nat) (ip_port : IpPort) (inner : Option OnionReturn)
  deriving Repr

/-- `OnionReturn::new`. -/
def OnionReturn.new (key : Nat) (ip_port : IpPort)
    (inner : Option OnionReturn) : OnionReturn :=
  OnionReturn.mk key ip_port inner

/-- The symmetric key an `OnionReturn` was produced under. -/
def OnionReturn.enc_key : OnionReturn → Nat
  | OnionReturn.mk k _ _ => k

/-- `OnionReturn::get_payload`: symmetric authenticated decryption, succeeds
exactly under the key the return was produced under. -/
def OnionReturn.get_payload (r : OnionReturn) (key : Nat) :
    Except String (IpPort × Option OnionReturn) :=
  match r with
  | OnionReturn.mk k ipp inner =>
    if k = key then Except.ok (ipp, inner)
    else Except.error "OnionReturn decrypt error"

/-- `InnerOnionResponse`: the payload of onion response packets; its body is
opaque to the server core. -/
inductive InnerOnionResponse where
  | OnionAnnounceResponse (data : Nat)
  | OnionDataResponse (data : Nat)
  deriving DecidableEq, Repr

/-- `OnionResponse3` packet. -/
structure OnionResponse3 where
  onion_return : OnionReturn
  payload : InnerOnionResponse
  deriving Repr

/-- `OnionResponse2` packet. -/
structure OnionResponse2 where
  onion_return : OnionReturn
  payload : InnerOnionResponse
  deriving Repr

/-- `OnionResponse1` packet. -/
structure OnionResponse1 where
  onion_return : OnionReturn
  payload : InnerOnionResponse
  deriving Repr

/-- `DhtPacket`: the packet variants of the dispatch that the claims reach
(the remaining variants of the source enum — cookie/crypto handshake, LAN
discovery, onion requests, announce and BootstrapInfo — are not needed by any
claim and are omitted from the embedding). -/
inductive DhtPacket where
  | PingRequest (p : PingRequest)
  | PingResponse (p : PingResponse)
  | NodesRequest (p : NodesRequest)
  | NodesResponse (p : NodesResponse)
  | DhtRequest (p : DhtRequest)
  | OnionResponse3 (p : OnionResponse3)
  | OnionResponse2 (p : OnionResponse2)
  | OnionResponse1 (p : OnionResponse1)
  | OnionAnnounceResponse (data : Nat)
  | OnionDataResponse (data : Nat)
  deriving Repr

/-! ## Server state -/

/-- `secretbox::gen_key`: a fresh random symmetric key from the stream. -/
def gen_key (rng : List Nat) : Nat × List Nat :=
  (rng.headD 0, rng.tail)

/-- The `Server` state (`dht/server/mod.rs`).  The outbound UDP channel and
TCP onion sink are represented by the emission lists the functions return;
`tcp_onion_sink` records only whether a sink is configured.  The fields that
no modelled function reads (net crypto handle, version, MOTD, LAN discovery
flag, onion announce table) are omitted. -/
structure Server where
  sk : Nat
  pk : PublicKey
  is_hole_punching_enabled : Bool
  request_queue : RequestQueue
  close_nodes : Kbucket
  onion_symmetric_key : Nat
  onion_symmetric_key_time : Nat
  friends : List DhtFriend
  bootstrap_nodes : Bucket
  bootstrap_times : Nat
  last_nodes_req_time : Nat
  ping_sender : PingSender
  tcp_onion_sink : Bool
  is_ipv6_mode : Bool
  deriving Repr

/-- Result of a packet handler: updated server, packets emitted on the UDP
channel, inner responses emitted on the TCP onion sink, and the handler
outcome. -/
structure HandleRes where
  server : Server
  udp : List (DhtPacket × SocketAddr)
  tcp : List (InnerOnionResponse × SocketAddr)
  res : Except String Unit
  deriving Repr

/-- Result of a periodic-loop step: updated server, remaining randomness,
UDP emissions and outcome. -/
structure LoopRes where
  server : Server
  rng : List Nat
  udp : List (DhtPacket × SocketAddr)
  res : Except String Unit
  deriving Repr

/-- `future::join_all(...)`: succeeds iff every joined future succeeds,
otherwise fails with the first error. -/
def join_all : List (Except String Unit) → Except String Unit
  | [] => Except.ok ()
  | Except.ok () :: rest => join_all rest
  | Except.error e :: _ => Except.error e

end Tox

namespace Tox

/-! ## Small list helper -/

/-- Update the first element satisfying `p` (the `iter_mut().find(...)`
mutation pattern of the source). -/
def update_first {α : Type} (p : α → Bool) (f : α → α) : List α → List α
  | [] => []
  | x :: rest => if p x then f x :: rest else x :: update_first p f rest

/-! ## Server: sending -/

/-- `Server::send_to`: in IPv6 mode an IPv4 destination is rewritten to its
IPv4-mapped IPv6 form and an IPv6 destination passes through; in IPv4 mode an
IPv6 destination is rejected with an error. -/
def Server.send_to (s : Server) (addr : SocketAddr) (packet : DhtPacket) :
    List (DhtPacket × SocketAddr) × Except String Unit :=
  if s.is_ipv6_mode then
    if addr.ip.v6 then ([(packet, addr)], Except.ok ())
    else
      ([(packet, { ip := addr.ip.to_ipv6_mapped, port := addr.port })],
       Except.ok ())
  else
    if addr.is_ipv6 then
      ([], Except.error
        "DHT node is running in ipv4 mode but target node socket is ipv6 address")
    else ([(packet, addr)], Except.ok ())

/-- `Server::send_nodes_req`: refuse to send to our own key, otherwise build
the encrypted NodesRequest and pass it to `send_to`. -/
def Server.send_nodes_req (s : Server) (target_peer : PackedNode)
    (search_pk : PublicKey) (ping_id : Nat) :
    List (DhtPacket × SocketAddr) × Except String Unit :=
  if s.pk = target_peer.pk then ([], Except.error "friend pk is mine")
  else
    let payload : NodesRequestPayload := { pk := search_pk, id := ping_id }
    let nodes_req := DhtPacket.NodesRequest
      { pk := s.pk,
        payload := { key := precompute target_peer.pk s.sk, msg := payload } }
    s.send_to target_peer.saddr nodes_req

/-- `Server::send_ping_req`: draw a fresh ping id, record it, send an
encrypted PingRequest to the node. -/
def Server.send_ping_req (s : Server) (node : PackedNode) (now : Nat)
    (rng : List Nat) :
    Server × List Nat × List (DhtPacket × SocketAddr) × Except String Unit :=
  let (q, id, rng) := s.request_queue.new_ping_id node.pk now rng
  let s := { s with request_queue := q }
  let ping_req := DhtPacket.PingRequest
    { pk := s.pk, payload := { key := precompute node.pk s.sk, msg := { id := id } } }
  let (out, res) := s.send_to node.saddr ping_req
  (s, rng, out, res)

/-! ## Server: packet handlers -/

/-- `Server::handle_ping_req`: decrypt, reply with a PingResponse carrying
the same id, and opportunistically queue the sender in the ping sender (the
boolean result of `try_add` is ignored; its future always succeeds, so the
handler outcome is the outcome of the response send). -/
def Server.handle_ping_req (s : Server) (packet : PingRequest)
    (addr : SocketAddr) : HandleRes :=
  match packet.payload.open_with (precompute packet.pk s.sk)
      "PingRequest decrypt error" with
  | Except.error e => { server := s, udp := [], tcp := [], res := Except.error e }
  | Except.ok payload =>
    let resp_payload : PingResponsePayload := { id := payload.id }
    let ping_resp := DhtPacket.PingResponse
      { pk := s.pk,
        payload := { key := precompute packet.pk s.sk, msg := resp_payload } }
    let node_to_ping : PackedNode := { pk := packet.pk, saddr := addr }
    let s := { s with ping_sender := s.ping_sender.try_add node_to_ping }
    let (out, res) := s.send_to addr ping_resp
    { server := s, udp := out, tcp := [], res := res }

/-- `Server::handle_ping_resp`: decrypt, reject a zero id, consume the
matching request-queue entry, stamp the close-list entry response time by
address family; error when the sender is not in the close list. -/
def Server.handle_ping_resp (s : Server) (packet : PingResponse)
    (addr : SocketAddr) (now : Nat) : HandleRes :=
  match packet.payload.open_with (precompute packet.pk s.sk)
      "PingResponse decrypt error" with
  | Except.error e => { server := s, udp := [], tcp := [], res := Except.error e }
  | Except.ok payload =>
    if payload.id = 0 then
      { server := s, udp := [], tcp := [],
        res := Except.error "PingResponse.ping_id == 0" }
    else
      let (chk, q) := s.request_queue.check_ping_id packet.pk payload.id now
      let s := { s with request_queue := q }
      if chk then
        match s.close_nodes.get_node packet.pk with
        | some _ =>
          let stamp := fun (n : DhtNode) =>
            if addr.is_ipv4 then { n with last_resp_time_v4 := some now }
            else { n with last_resp_time_v6 := some now }
          let s := { s with close_nodes := s.close_nodes.modify_node packet.pk stamp }
          { server := s, udp := [], tcp := [], res := Except.ok () }
        | none =>
          { server := s, udp := [], tcp := [],
            res := Except.error "Node from PingResponse does not exist" }
      else
        { server := s, udp := [], tcp := [],
          res := Except.error "PingResponse.ping_id does not match" }

/-- `Server::handle_nodes_req`: decrypt, assemble at most 4 closest nodes
from the close list (scoped by the global-routability of the sender address)
and the friends close-nodes buckets into a capacity-4 bucket, reply with a
NodesResponse echoing the request id, and opportunistically queue the sender
in the ping sender. -/
def Server.handle_nodes_req (s : Server) (packet : NodesRequest)
    (addr : SocketAddr) : HandleRes :=
  match packet.payload.open_with (precompute packet.pk s.sk)
      "NodesRequest decrypt error" with
  | Except.error e => { server := s, udp := [], tcp := [], res := Except.error e }
  | Except.ok payload =>
    let close := s.close_nodes.get_closest payload.pk addr.ip.global
    let collected := close.foldl
      (fun b n => (Bucket.try_add b payload.pk n).1) (Bucket.new (some 4))
    let collected := s.friends.foldl
      (fun b f => f.close_nodes.nodes.foldl
        (fun b n => (Bucket.try_add b payload.pk n.to_packed).1) b)
      collected
    let collected_nodes := collected.nodes.map DhtNode.to_packed
    let resp_payload : NodesResponsePayload :=
      { nodes := collected_nodes, id := payload.id }
    let nodes_resp := DhtPacket.NodesResponse
      { pk := s.pk,
        payload := { key := precompute packet.pk s.sk, msg := resp_payload } }
    let node_to_ping : PackedNode := { pk := packet.pk, saddr := addr }
    let s := { s with ping_sender := s.ping_sender.try_add node_to_ping }
    let (out, res) := s.send_to addr nodes_resp
    { server := s, udp := out, tcp := [], res := res }

/-- `Server::handle_nodes_resp`: decrypt, verify the ping id against the
request queue (consuming it); on success offer every returned node to the
close list, the bootstrap bucket and every friend close-nodes bucket; on
mismatch error without touching them. -/
def Server.handle_nodes_resp (s : Server) (packet : NodesResponse)
    (now : Nat) : HandleRes :=
  match packet.payload.open_with (precompute packet.pk s.sk)
      "NodesResponse decrypt error" with
  | Except.error e => { server := s, udp := [], tcp := [], res := Except.error e }
  | Except.ok payload =>
    let (chk, q) := s.request_queue.check_ping_id packet.pk payload.id now
    let s := { s with request_queue := q }
    if chk then
      let s := payload.nodes.foldl
        (fun s n =>
          { s with close_nodes := (s.close_nodes.try_add n).1,
                   bootstrap_nodes := (s.bootstrap_nodes.try_add s.pk n).1,
                   friends := s.friends.map (fun f => f.add_to_close n) })
        s
      { server := s, udp := [], tcp := [], res := Except.ok () }
    else
      { server := s, udp := [], tcp := [],
        res := Except.error "NodesResponse.ping_id does not match" }

/-- `Server::handle_nat_ping_req`: respond with a NatPingResponse carrying
the same id, wrapped in a DhtRequest addressed back to the sender. -/
def Server.handle_nat_ping_req (s : Server) (payload : NatPingRequest)
    (spk : PublicKey) (addr : SocketAddr) : HandleRes :=
  let resp_payload := DhtRequestPayload.NatPingResponse { id := payload.id }
  let nat_ping_resp := DhtPacket.DhtRequest
    { rpk := spk, spk := s.pk,
      payload := { key := precompute spk s.sk, msg := resp_payload } }
  let (out, res) := s.send_to addr nat_ping_resp
  { server := s, udp := out, tcp := [], res := res }

/-- `Server::handle_nat_ping_resp`: find the friend by sender key, reject a
zero id, and when the response is fresh and matches the hole-punch id mark
punching eligible. -/
def Server.handle_nat_ping_resp (s : Server) (payload : NatPingResponse)
    (spk : PublicKey) (send_nat_ping_interval : Nat) (now : Nat) : HandleRes :=
  match s.friends.find? (fun f => f.pk = spk) with
  | none =>
    { server := s, udp := [], tcp := [], res := Except.error "Cant find friend" }
  | some friend =>
    if payload.id = 0 then
      { server := s, udp := [], tcp := [],
        res := Except.error "NodesResponse.ping_id == 0" }
    else
      if now - friend.hole_punch.last_recv_ping_time < send_nat_ping_interval
          && friend.hole_punch.ping_id = payload.id then
        let enable := fun (f : DhtFriend) =>
          { f with hole_punch := { f.hole_punch with is_punching_done := false } }
        let fs := update_first (fun f => f.pk = spk) enable s.friends
        let s := { s with friends := fs }
        { server := s, udp := [], tcp := [], res := Except.ok () }
      else
        { server := s, udp := [], tcp := [],
          res := Except.error "NatPingResponse.ping_id does not match or timed out" }

/-- `Server::handle_dht_req`: when addressed to us decrypt and dispatch the
inner payload (NatPingRequest, NatPingResponse, or the ignored DhtPkAnnounce);
otherwise forward to the recipient from the close list, silently dropping
when it is unknown or has no usable address. -/
def Server.handle_dht_req (s : Server) (packet : DhtRequest)
    (addr : SocketAddr) (now : Nat) : HandleRes :=
  if packet.rpk = s.pk then
    match packet.payload.open_with (precompute packet.spk s.sk)
        "DhtRequest decrypt error" with
    | Except.error e => { server := s, udp := [], tcp := [], res := Except.error e }
    | Except.ok payload =>
      match payload with
      | DhtRequestPayload.NatPingRequest nat_payload =>
        s.handle_nat_ping_req nat_payload packet.spk addr
      | DhtRequestPayload.NatPingResponse nat_payload =>
        s.handle_nat_ping_resp nat_payload packet.spk NAT_PING_PUNCHING_INTERVAL now
      | DhtRequestPayload.DhtPkAnnounce =>
        { server := s, udp := [], tcp := [], res := Except.ok () }
  else
    match s.close_nodes.get_node packet.rpk with
    | some node =>
      match node.get_socket_addr s.is_ipv6_mode with
      | some fwd_addr =>
        let (out, res) := s.send_to fwd_addr (DhtPacket.DhtRequest packet)
        { server := s, udp := out, tcp := [], res := res }
      | none => { server := s, udp := [], tcp := [], res := Except.ok () }
    | none => { server := s, udp := [], tcp := [], res := Except.ok () }

/-- `Server::handle_onion_response_3`: decrypt the onion return with the
current symmetric key; it must contain an inner return, which wraps the
payload one layer shallower as an OnionResponse2 sent to the recovered hop. -/
def Server.handle_onion_response_3 (s : Server) (packet : OnionResponse3) :
    HandleRes :=
  match packet.onion_return.get_payload s.onion_symmetric_key with
  | Except.error e => { server := s, udp := [], tcp := [], res := Except.error e }
  | Except.ok (ip_port, some next_onion_return) =>
    let next_packet := DhtPacket.OnionResponse2
      { onion_return := next_onion_return, payload := packet.payload }
    let (out, res) := s.send_to ip_port.to_saddr next_packet
    { server := s, udp := out, tcp := [], res := res }
  | Except.ok (_, none) =>
    { server := s, udp := [], tcp := [],
      res := Except.error "OnionResponse3 next_onion_return is none" }

/-- `Server::handle_onion_response_2`: like the layer above, producing an
OnionResponse1. -/
def Server.handle_onion_response_2 (s : Server) (packet : OnionResponse2) :
    HandleRes :=
  match packet.onion_return.get_payload s.onion_symmetric_key with
  | Except.error e => { server := s, udp := [], tcp := [], res := Except.error e }
  | Except.ok (ip_port, some next_onion_return) =>
    let next_packet := DhtPacket.OnionResponse1
      { onion_return := next_onion_return, payload := packet.payload }
    let (out, res) := s.send_to ip_port.to_saddr next_packet
    { server := s, udp := out, tcp := [], res := res }
  | Except.ok (_, none) =>
    { server := s, udp := [], tcp := [],
      res := Except.error "OnionResponse2 next_onion_return is none" }

/-- `Server::handle_onion_response_1`: decrypt the onion return with the
current symmetric key; it must contain no inner return; deliver the inner
response over UDP, or to the TCP onion sink when the protocol marker is TCP
and a sink is configured. -/
def Server.handle_onion_response_1 (s : Server) (packet : OnionResponse1) :
    HandleRes :=
  match packet.onion_return.get_payload s.onion_symmetric_key with
  | Except.error e => { server := s, udp := [], tcp := [], res := Except.error e }
  | Except.ok (ip_port, none) =>
    match ip_port.protocol with
    | ProtocolType.udp =>
      let next_packet := match packet.payload with
        | InnerOnionResponse.OnionAnnounceResponse inner =>
          DhtPacket.OnionAnnounceResponse inner
        | InnerOnionResponse.OnionDataResponse inner =>
          DhtPacket.OnionDataResponse inner
      let (out, res) := s.send_to ip_port.to_saddr next_packet
      { server := s, udp := out, tcp := [], res := res }
    | ProtocolType.tcp =>
      if s.tcp_onion_sink then
        { server := s, udp := [], tcp := [(packet.payload, ip_port.to_saddr)],
          res := Except.ok () }
      else
        { server := s, udp := [], tcp := [],
          res := Except.error "OnionResponse1 cant be redirected to TCP relay" }
  | Except.ok (_, some _) =>
    { server := s, udp := [], tcp := [],
      res := Except.error "OnionResponse1 next_onion_return is some" }

/-- `Server::handle_packet`: dispatch on the packet kind; the sendable-only
kinds (OnionAnnounceResponse, OnionDataResponse) fall to the unhandled
branch. -/
def Server.handle_packet (s : Server) (packet : DhtPacket)
    (addr : SocketAddr) (now : Nat) : HandleRes :=
  match packet with
  | DhtPacket.PingRequest p => s.handle_ping_req p addr
  | DhtPacket.PingResponse p => s.handle_ping_resp p addr now
  | DhtPacket.NodesRequest p => s.handle_nodes_req p addr
  | DhtPacket.NodesResponse p => s.handle_nodes_resp p now
  | DhtPacket.DhtRequest p => s.handle_dht_req p addr now
  | DhtPacket.OnionResponse3 p => s.handle_onion_response_3 p
  | DhtPacket.OnionResponse2 p => s.handle_onion_response_2 p
  | DhtPacket.OnionResponse1 p => s.handle_onion_response_1 p
  | _ => { server := s, udp := [], tcp := [],
           res := Except.error "DhtPacket is not handled" }

end Tox

namespace Tox

/-! ## Server: periodic loop -/

/-- `Server::refresh_onion_key`: if the key is older than
`ONION_REFRESH_KEY_INTERVAL`, stamp the time and generate a new key.  The old
key is not kept anywhere. -/
def Server.refresh_onion_key (s : Server) (now : Nat) (rng : List Nat) :
    Server × List Nat :=
  if ONION_REFRESH_KEY_INTERVAL ≤ now - s.onion_symmetric_key_time then
    let (k, rng) := gen_key rng
    ({ s with onion_symmetric_key_time := now, onion_symmetric_key := k }, rng)
  else (s, rng)

/-- `Server::ping_bootstrap_nodes`: drain the bootstrap bucket and send each
former candidate a NodesRequest for our own key with a fresh ping id; the
per-node send outcomes are swallowed, the future always succeeds. -/
def Server.ping_bootstrap_nodes (s : Server) (now : Nat) (rng : List Nat) :
    LoopRes :=
  let drained := s.bootstrap_nodes.to_packed
  let s := { s with bootstrap_nodes := Bucket.new none }
  let step := fun (acc : Server × List Nat × List (DhtPacket × SocketAddr))
      (node : PackedNode) =>
    let (s, rng, out) := acc
    let (q, id, rng) := s.request_queue.new_ping_id node.pk now rng
    let s := { s with request_queue := q }
    let (o, _) := s.send_nodes_req node s.pk id
    (s, rng, out ++ o)
  let acc := drained.foldl step (s, rng, [])
  { server := acc.1, rng := acc.2.1, udp := acc.2.2, res := Except.ok () }

/-- Walk of the close-list entries for `ping_and_get_close_nodes`: each entry
whose last ping request is unset or at least `PING_INTERVAL` old is stamped
and sent a NodesRequest for our own key with a fresh ping id. -/
def ping_close_go (s : Server) (now : Nat) :
    List DhtNode → RequestQueue → List Nat →
    List DhtNode × RequestQueue × List Nat × List (DhtPacket × SocketAddr)
  | [], q, rng => ([], q, rng, [])
  | n :: rest, q, rng =>
    let due := match n.last_ping_req_time with
      | none => true
      | some t => PING_INTERVAL ≤ now - t
    if due then
      let n := { n with last_ping_req_time := some now }
      let (q, id, rng) := q.new_ping_id n.pk now rng
      let (o, _) := s.send_nodes_req n.to_packed s.pk id
      let (ns, q, rng, out) := ping_close_go s now rest q rng
      (n :: ns, q, rng, o ++ out)
    else
      let (ns, q, rng, out) := ping_close_go s now rest q rng
      (n :: ns, q, rng, out)

/-- `Server::ping_and_get_close_nodes`; the per-node send outcomes are
swallowed, the future always succeeds. -/
def Server.ping_and_get_close_nodes (s : Server) (now : Nat) (rng : List Nat) :
    LoopRes :=
  let acc := ping_close_go s now s.close_nodes.bucket.nodes s.request_queue rng
  let kb :=
    { s.close_nodes with bucket := { s.close_nodes.bucket with nodes := acc.1 } }
  { server := { s with request_queue := acc.2.1, close_nodes := kb },
    rng := acc.2.2.1, udp := acc.2.2.2, res := Except.ok () }

/-- `Server::send_nodes_req_random`: when the last random NodesRequest is at
least `NODES_REQ_INTERVAL` old or fewer than `MAX_BOOTSTRAP_TIMES` rounds have
run, pick a good (non-bad) close-list entry with the two-stage sample biased
toward smaller index, send it a NodesRequest for our own key, increment the
round counter and stamp the time.  Unlike the other periodic sub-operations
the outcome of this send is returned unswallowed. -/
def Server.send_nodes_req_random (s : Server) (now : Nat) (rng : List Nat) :
    LoopRes :=
  if now - s.last_nodes_req_time < NODES_REQ_INTERVAL
      && MAX_BOOTSTRAP_TIMES ≤ s.bootstrap_times then
    { server := s, rng := rng, udp := [], res := Except.ok () }
  else
    let good_nodes :=
      (s.close_nodes.bucket.nodes.filter (fun n => !(n.is_bad now))).map
        DhtNode.to_packed
    if good_nodes.isEmpty then
      { server := s, rng := rng, udp := [], res := Except.ok () }
    else
      let (r, rng) := random_u32 rng
      let idx := r % good_nodes.length
      let (idx, rng) :=
        if idx ≠ 0 then
          let (r2, rng) := random_u32 rng
          (idx - r2 % (idx + 1), rng)
        else (idx, rng)
      let random_node := good_nodes.getD idx dummy_node
      let (q, id, rng) := s.request_queue.new_ping_id random_node.pk now rng
      let s := { s with request_queue := q }
      let (out, res) := s.send_nodes_req random_node s.pk id
      let s := { s with bootstrap_times := s.bootstrap_times + 1,
                        last_nodes_req_time := now }
      { server := s, rng := rng, udp := out, res := res }

/-- Modelled from the spec (§4.1.6): `DhtFriend::send_nodes_req_packets`
sends NodesRequests for the friend key to the nodes of its close bucket on
the friend sub-schedule, with fresh ping ids from the server request
queue. -/
def DhtFriend.send_nodes_req_packets (f : DhtFriend) (s : Server) (now : Nat)
    (q : RequestQueue) (rng : List Nat) :
    DhtFriend × RequestQueue × List Nat × List (DhtPacket × SocketAddr) :=
  if NODES_REQ_INTERVAL ≤ now - f.last_nodes_req_time then
    let step := fun (acc : RequestQueue × List Nat × List (DhtPacket × SocketAddr))
        (n : DhtNode) =>
      let (q, rng, out) := acc
      let (q, id, rng) := q.new_ping_id n.pk now rng
      let (o, _) := s.send_nodes_req n.to_packed f.pk id
      (q, rng, out ++ o)
    let (q, rng, out) := f.close_nodes.nodes.foldl step (q, rng, [])
    ({ f with last_nodes_req_time := now }, q, rng, out)
  else (f, q, rng, [])

/-- Walk of the friends for `send_nodes_req_to_friends`. -/
def friends_nodes_req_go (s : Server) (now : Nat) :
    List DhtFriend → RequestQueue → List Nat →
    List DhtFriend × RequestQueue × List Nat × List (DhtPacket × SocketAddr)
  | [], q, rng => ([], q, rng, [])
  | f :: rest, q, rng =>
    let (f, q, rng, out) := f.send_nodes_req_packets s now q rng
    let (fs, q, rng, outs) := friends_nodes_req_go s now rest q rng
    (f :: fs, q, rng, out ++ outs)

/-- `Server::send_nodes_req_to_friends`; the per-friend outcomes are
swallowed, the future always succeeds. -/
def Server.send_nodes_req_to_friends (s : Server) (now : Nat)
    (rng : List Nat) : LoopRes :=
  let acc := friends_nodes_req_go s now s.friends s.request_queue rng
  { server := { s with friends := acc.1, request_queue := acc.2.1 },
    rng := acc.2.2.1, udp := acc.2.2.2, res := Except.ok () }

/-- `Server::send_pings`, delegating to `PingSender::send_pings`.  Modelled
from the spec (§4.1.7): `ping_sender.rs` is not among the sources; the queued
PingRequests are flushed (each through `send_ping_req`) and the queue is
cleared; per §4.1 the flush failures are logged, not propagated, so the
future always succeeds. -/
def Server.send_pings (s : Server) (now : Nat) (rng : List Nat) : LoopRes :=
  let queued := s.ping_sender.nodes
  let s := { s with ping_sender := { nodes := [] } }
  let step := fun (acc : Server × List Nat × List (DhtPacket × SocketAddr))
      (node : PackedNode) =>
    let (s, rng, out) := acc
    let (s, rng, o, _) := s.send_ping_req node now rng
    (s, rng, out ++ o)
  let acc := queued.foldl step (s, rng, [])
  { server := acc.1, rng := acc.2.1, udp := acc.2.2, res := Except.ok () }

/-- `Server::send_nat_ping_req_inner`: broadcast the NatPingRequest packet to
every node of the friend close bucket that has a usable address. -/
def Server.send_nat_ping_req_inner (s : Server) (f : DhtFriend)
    (pkt : DhtPacket) : List (DhtPacket × SocketAddr) :=
  let step := fun (out : List (DhtPacket × SocketAddr)) (n : DhtNode) =>
    match n.get_socket_addr s.is_ipv6_mode with
    | some addr => out ++ (s.send_to addr pkt).1
    | none => out
  f.close_nodes.nodes.foldl step []

/-- Walk of the friends for `send_nat_ping_req`: advance hole punching and,
when the last NAT ping is unset or stale, stamp it and broadcast the
NatPingRequest wrapped in a DhtRequest addressed to the friend. -/
def nat_ping_go (s : Server) (now : Nat) :
    List DhtFriend → List DhtFriend × List (DhtPacket × SocketAddr)
  | [] => ([], [])
  | f :: rest =>
    let f := { f with hole_punch := f.hole_punch.try_nat_punch }
    let payload := DhtRequestPayload.NatPingRequest { id := f.hole_punch.ping_id }
    let pkt := DhtPacket.DhtRequest
      { rpk := f.pk, spk := s.pk,
        payload := { key := precompute f.pk s.sk, msg := payload } }
    let due := match f.hole_punch.last_send_ping_time with
      | none => true
      | some t => NAT_PING_PUNCHING_INTERVAL ≤ now - t
    if due then
      let f := { f with hole_punch :=
        { f.hole_punch with last_send_ping_time := some now } }
      let out := s.send_nat_ping_req_inner f pkt
      let (fs, outs) := nat_ping_go s now rest
      (f :: fs, out ++ outs)
    else
      let (fs, outs) := nat_ping_go s now rest
      (f :: fs, outs)

/-- `Server::send_nat_ping_req`; the per-friend outcomes are swallowed, the
future always succeeds. -/
def Server.send_nat_ping_req (s : Server) (now : Nat) (rng : List Nat) :
    LoopRes :=
  if s.friends.isEmpty then
    { server := s, rng := rng, udp := [], res := Except.ok () }
  else
    let acc := nat_ping_go s now s.friends
    { server := { s with friends := acc.1 },
      rng := rng, udp := acc.2, res := Except.ok () }

/-- `Server::dht_main_loop`: clear the request queue, refresh the onion key,
run the six sub-operations (their state effects happen unconditionally, in
construction order) and join their outcomes with `future::join_all`, which
fails when any of them fails. -/
def Server.dht_main_loop (s : Server) (now : Nat) (rng : List Nat) : LoopRes :=
  let s := { s with request_queue := s.request_queue.clear_timed_out now }
  let (s, rng) := s.refresh_onion_key now rng
  let r1 := s.ping_bootstrap_nodes now rng
  let r2 := r1.server.ping_and_get_close_nodes now r1.rng
  let r3 := r2.server.send_nodes_req_random now r2.rng
  let r4 := r3.server.send_nodes_req_to_friends now r3.rng
  let r5 := r4.server.send_pings now r4.rng
  let r6 := r5.server.send_nat_ping_req now r5.rng
  { server := r6.server, rng := r6.rng,
    udp := r1.udp ++ r2.udp ++ r3.udp ++ r4.udp ++ r5.udp ++ r6.udp,
    res := join_all [r1.res, r2.res, r3.res, r4.res, r5.res, r6.res] }

/-! ## Onion client (`src/toxcore/onion/client/mod.rs`) -/

/-- `NUMBER_ONION_PATHS`. -/
def NUMBER_ONION_PATHS : Nat := 6

/-- The onion `Client` state restricted to the field `random_path_nodes`
reads; the remaining fields of the source struct are stubs
(`unimplemented!`) outside this embedding. -/
structure Client where
  path_nodes : List PackedNode
  deriving DecidableEq, Repr

/-- The `while nodes.len() < NUMBER_ONION_PATHS` loop of
`Client::random_path_nodes`, with explicit fuel: `none` means the loop has
not produced a result within `fuel` iterations (or the `unwrap` panicked),
`some nodes` that it exited with the accumulated nodes. -/
def random_path_nodes_loop (c : Client) :
    Nat → List PackedNode → List Nat → Option (List PackedNode)
  | 0, _, _ => none
  | fuel + 1, nodes, rng =>
    if NUMBER_ONION_PATHS ≤ nodes.length then some nodes
    else
      match random_element rng c.path_nodes with
      | (none, _) => none
      | (some node, rng) =>
        if !(c.path_nodes.contains node) then
          random_path_nodes_loop c fuel (nodes ++ [node]) rng
        else
          random_path_nodes_loop c fuel nodes rng

/-- `Client::random_path_nodes`: `some r` means the call returns `r` within
`fuel` loop iterations; `none` that it has not returned. -/
def Client.random_path_nodes (c : Client) (rng : List Nat) (fuel : Nat) :
    Option (Option (List PackedNode)) :=
  if c.path_nodes.length < NUMBER_ONION_PATHS then some none
  else
    match random_path_nodes_loop c fuel [] rng with
    | none => none
    | some nodes => some (some nodes)

end Tox

namespace Tox

/-! ## Shared concrete values for witnesses and counterexamples -/

/-- A globally routable IPv4 address. -/
def ip4a : IpAddr := { v6 := false, addr := 7, global := true }

/-- A globally routable IPv6 address. -/
def ip6a : IpAddr := { v6 := true, addr := 8, global := true }

/-- A concrete IPv4 socket address. -/
def addr4 : SocketAddr := { ip := ip4a, port := 12345 }

/-- A concrete IPv6 socket address. -/
def addr6 : SocketAddr := { ip := ip6a, port := 33445 }

/-- A freshly created server (IPv4 mode, empty state), key pair `(105, 5)`. -/
def base_server : Server :=
  { sk := 5, pk := 105, is_hole_punching_enabled := true,
    request_queue := { timeout := PING_TIMEOUT, entries := [] },
    close_nodes := Kbucket.new 105,
    onion_symmetric_key := 11, onion_symmetric_key_time := 0,
    friends := [], bootstrap_nodes := Bucket.new none,
    bootstrap_times := 0, last_nodes_req_time := 0,
    ping_sender := { nodes := [] }, tcp_onion_sink := false,
    is_ipv6_mode := false }

/-- An arbitrary concrete packet for exercising `send_to`. -/
def probe_packet : DhtPacket := DhtPacket.OnionAnnounceResponse 0

/-! ## C8 — outbound address policy -/

/-- C8: for every packet and destination, `send_to` in IPv4 mode rejects an
IPv6 destination with an error and emits nothing; in IPv6 mode it rewrites an
IPv4 destination to its IPv4-mapped IPv6 address with the same port before
enqueueing and passes an IPv6 destination through unchanged. -/
theorem send_to_address_policy (s : Server) (addr : SocketAddr)
    (p : DhtPacket) :
    (s.is_ipv6_mode = false → addr.ip.v6 = true →
      s.send_to addr p =
        ([], Except.error
          "DHT node is running in ipv4 mode but target node socket is ipv6 address")) ∧
    (s.is_ipv6_mode = true → addr.ip.v6 = false →
      s.send_to addr p =
        ([(p, { ip := addr.ip.to_ipv6_mapped, port := addr.port })],
         Except.ok ())) ∧
    (s.is_ipv6_mode = true → addr.ip.v6 = true →
      s.send_to addr p = ([(p, addr)], Except.ok ())) := by
  refine ⟨?_, ?_, ?_⟩ <;> intro h1 h2 <;>
    simp [Server.send_to, SocketAddr.is_ipv6, h1, h2]

/-- Witness for C8: the three branches at concrete inputs. -/
theorem send_to_address_policy_witness :
    (base_server.send_to addr6 probe_packet =
      ([], Except.error
        "DHT node is running in ipv4 mode but target node socket is ipv6 address")) ∧
    ({ base_server with is_ipv6_mode := true }.send_to addr4 probe_packet =
      ([(probe_packet, { ip := addr4.ip.to_ipv6_mapped, port := addr4.port })],
       Except.ok ())) ∧
    ({ base_server with is_ipv6_mode := true }.send_to addr6 probe_packet =
      ([(probe_packet, addr6)], Except.ok ())) :=
  ⟨(send_to_address_policy base_server addr6 probe_packet).1 rfl rfl,
   (send_to_address_policy { base_server with is_ipv6_mode := true } addr4
      probe_packet).2.1 rfl rfl,
   (send_to_address_policy { base_server with is_ipv6_mode := true } addr6
      probe_packet).2.2 rfl rfl⟩

end Tox

namespace Tox

/-! ## C10 — `Client::random_path_nodes` -/

/-- The selection loop of `random_path_nodes` makes no progress: the node it
draws comes from `path_nodes`, so the guard `!self.path_nodes.contains(node)`
in front of the only push is always false and the accumulator never grows. -/
theorem random_path_nodes_loop_stuck (c : Client) (h : c.path_nodes ≠ [])
    (nodes : List PackedNode) (hlen : nodes.length < NUMBER_ONION_PATHS) :
    ∀ fuel rng, random_path_nodes_loop c fuel nodes rng = none := by
  intro fuel
  induction fuel with
  | zero => intro rng; rfl
  | succ fuel ih =>
    intro rng
    have hlt : ¬ NUMBER_ONION_PATHS ≤ nodes.length := by omega
    have hidx : (random_usize rng).1 % c.path_nodes.length < c.path_nodes.length :=
      Nat.mod_lt _ (List.length_pos.mpr h)
    obtain ⟨node, hget⟩ :
        ∃ node, c.path_nodes.get? ((random_usize rng).1 % c.path_nodes.length) =
          some node :=
      ⟨c.path_nodes.get ⟨_, hidx⟩, List.get?_eq_get hidx⟩
    have hmem : node ∈ c.path_nodes := List.get?_mem hget
    have hcont : c.path_nodes.contains node = true :=
      List.elem_eq_true_of_mem hmem
    simp only [random_path_nodes_loop, if_neg hlt, random_element,
      List.isEmpty_eq_true, h, if_false]
    rw [hget]
    simp only [hcont, Bool.not_true, Bool.false_eq_true, if_false]
    exact ih _

/-- C10: `random_path_nodes` never returns on a client whose `path_nodes`
holds at least `NUMBER_ONION_PATHS` entries — for every iteration budget the
loop is still running, so in particular it never produces the `Some` list of
6 nodes the claim describes (and with fewer entries it returns `None`, which
the early-exit in the embedding models as `some none`). -/
theorem random_path_nodes_never_returns (c : Client) (rng : List Nat)
    (fuel : Nat) (h : NUMBER_ONION_PATHS ≤ c.path_nodes.length) :
    c.random_path_nodes rng fuel = none := by
  have hne : c.path_nodes ≠ [] := by
    intro he
    rw [he] at h
    simp [NUMBER_ONION_PATHS] at h
  unfold Client.random_path_nodes
  rw [if_neg (by omega)]
  rw [random_path_nodes_loop_stuck c hne [] (by simp [NUMBER_ONION_PATHS]) fuel rng]

/-- A client with six distinct path nodes. -/
def cex_client : Client :=
  { path_nodes :=
      [{ saddr := addr4, pk := 1 }, { saddr := addr4, pk := 2 },
       { saddr := addr4, pk := 3 }, { saddr := addr4, pk := 4 },
       { saddr := addr4, pk := 5 }, { saddr := addr4, pk := 6 }] }

/-- Witness for C10 at a concrete client, randomness and budget. -/
theorem random_path_nodes_never_returns_witness :
    NUMBER_ONION_PATHS ≤ cex_client.path_nodes.length ∧
    cex_client.random_path_nodes [3, 1, 4, 1, 5] 50 = none :=
  ⟨by decide, random_path_nodes_never_returns cex_client [3, 1, 4, 1, 5] 50 (by decide)⟩

end Tox

namespace Tox

/-! ## C2 — onion key rotation and old onion returns -/

/-- C2 (amended): `refresh_onion_key` replaces the single stored symmetric
key (stamping the rotation time); no previous key is retained, so every
OnionReturn not encrypted under the current key — in particular one produced
under the immediately preceding key after a rotation — fails to decrypt and
the OnionResponse3/2/1 handlers return the decryption error and forward
nothing. -/
theorem onion_key_rotation_rejects_old_returns (s : Server) (now : Nat)
    (rng : List Nat) (p3 : OnionResponse3) (p2 : OnionResponse2)
    (p1 : OnionResponse1) :
    (ONION_REFRESH_KEY_INTERVAL ≤ now - s.onion_symmetric_key_time →
      (s.refresh_onion_key now rng).1.onion_symmetric_key = rng.headD 0 ∧
      (s.refresh_onion_key now rng).1.onion_symmetric_key_time = now) ∧
    (p3.onion_return.enc_key ≠ s.onion_symmetric_key →
      (s.handle_onion_response_3 p3).res =
        Except.error "OnionReturn decrypt error" ∧
      (s.handle_onion_response_3 p3).udp = []) ∧
    (p2.onion_return.enc_key ≠ s.onion_symmetric_key →
      (s.handle_onion_response_2 p2).res =
        Except.error "OnionReturn decrypt error" ∧
      (s.handle_onion_response_2 p2).udp = []) ∧
    (p1.onion_return.enc_key ≠ s.onion_symmetric_key →
      (s.handle_onion_response_1 p1).res =
        Except.error "OnionReturn decrypt error" ∧
      (s.handle_onion_response_1 p1).udp = [] ∧
      (s.handle_onion_response_1 p1).tcp = []) := by
  refine ⟨?_, ?_, ?_, ?_⟩
  · intro hrot
    simp [Server.refresh_onion_key, gen_key, hrot]
  · intro hk
    cases hp : p3.onion_return with
    | mk k ipp inner =>
      rw [hp] at hk
      simp only [OnionReturn.enc_key] at hk
      simp [Server.handle_onion_response_3, OnionReturn.get_payload, hp, hk]
  · intro hk
    cases hp : p2.onion_return with
    | mk k ipp inner =>
      rw [hp] at hk
      simp only [OnionReturn.enc_key] at hk
      simp [Server.handle_onion_response_2, OnionReturn.get_payload, hp, hk]
  · intro hk
    cases hp : p1.onion_return with
    | mk k ipp inner =>
      rw [hp] at hk
      simp only [OnionReturn.enc_key] at hk
      simp [Server.handle_onion_response_1, OnionReturn.get_payload, hp, hk]

/-- An onion return encrypted under the key 99 (not a key of
`base_server`). -/
def stale_return : OnionReturn :=
  OnionReturn.mk 99 (IpPort.from_udp_saddr addr4) none

/-- OnionResponse3 whose return was produced under the key 99. -/
def stale_resp3 : OnionResponse3 :=
  { onion_return := OnionReturn.mk 99 (IpPort.from_udp_saddr addr4) (some stale_return),
    payload := InnerOnionResponse.OnionDataResponse 0 }

/-- OnionResponse2 whose return was produced under the key 99. -/
def stale_resp2 : OnionResponse2 :=
  { onion_return := OnionReturn.mk 99 (IpPort.from_udp_saddr addr4) (some stale_return),
    payload := InnerOnionResponse.OnionDataResponse 0 }

/-- OnionResponse1 whose return was produced under the key 99. -/
def stale_resp1 : OnionResponse1 :=
  { onion_return := OnionReturn.mk 99 (IpPort.from_udp_saddr addr4) none,
    payload := InnerOnionResponse.OnionDataResponse 0 }

/-- Witness for C2 at a concrete server, rotation time and stale packets. -/
theorem onion_key_rotation_rejects_old_returns_witness :
    ((base_server.refresh_onion_key 7200 [22]).1.onion_symmetric_key = 22 ∧
     (base_server.refresh_onion_key 7200 [22]).1.onion_symmetric_key_time = 7200) ∧
    ((base_server.handle_onion_response_3 stale_resp3).res =
        Except.error "OnionReturn decrypt error" ∧
     (base_server.handle_onion_response_3 stale_resp3).udp = []) ∧
    ((base_server.handle_onion_response_2 stale_resp2).res =
        Except.error "OnionReturn decrypt error" ∧
     (base_server.handle_onion_response_2 stale_resp2).udp = []) ∧
    ((base_server.handle_onion_response_1 stale_resp1).res =
        Except.error "OnionReturn decrypt error" ∧
     (base_server.handle_onion_response_1 stale_resp1).udp = [] ∧
     (base_server.handle_onion_response_1 stale_resp1).tcp = []) := by
  have h := onion_key_rotation_rejects_old_returns base_server 7200 [22]
    stale_resp3 stale_resp2 stale_resp1
  exact ⟨h.1 (by decide), h.2.1 (by decide), h.2.2.1 (by decide),
    h.2.2.2 (by decide)⟩

/-- The base server after a key rotation at time 7200 drawing the fresh
key 22. -/
def rotated_server : Server := (base_server.refresh_onion_key 7200 [22]).1

/-- An OnionResponse3 whose return was produced under the pre-rotation key of
`base_server` and carries an inner return (it would be forwarded if it
decrypted). -/
def old_key_resp3 : OnionResponse3 :=
  { onion_return :=
      OnionReturn.mk 11 (IpPort.from_udp_saddr addr4) (some stale_return),
    payload := InnerOnionResponse.OnionDataResponse 0 }

/-- Counterexample to C2 as stated: after the periodic rotation the key has
changed, and an OnionResponse3 whose return was encrypted under the
immediately preceding key is rejected with a decryption error and nothing is
forwarded. -/
theorem onion_previous_key_rejected_cex :
    rotated_server.onion_symmetric_key ≠ base_server.onion_symmetric_key ∧
    old_key_resp3.onion_return.enc_key = base_server.onion_symmetric_key ∧
    (rotated_server.handle_onion_response_3 old_key_resp3).res =
      Except.error "OnionReturn decrypt error" ∧
    (rotated_server.handle_onion_response_3 old_key_resp3).udp = [] := by
  refine ⟨by decide, by decide, ?_, ?_⟩ <;> rfl

end Tox

namespace Tox

/-! ## C9 — `handle_onion_response_1` branches -/

/-- The conversion `handle_onion_response_1` applies to the inner response
before sending it over UDP. -/
def InnerOnionResponse.to_dht_packet : InnerOnionResponse → DhtPacket
  | InnerOnionResponse.OnionAnnounceResponse d => DhtPacket.OnionAnnounceResponse d
  | InnerOnionResponse.OnionDataResponse d => DhtPacket.OnionDataResponse d

/-- C9 (amended): for an OnionResponse1 whose return decrypts under the
current symmetric key: an inner return present is an error with nothing sent;
protocol UDP sends the converted inner payload to the recovered address
(IPv4-mapped in IPv6 mode) unless IPv6 mode is off and the address is IPv6,
which is an error with nothing sent; protocol TCP delivers the inner payload
to the TCP onion sink when one is configured and errors otherwise. -/
theorem handle_onion_response_1_branches (s : Server) (p : OnionResponse1)
    (ipp : IpPort) (inner : Option OnionReturn)
    (hdec : p.onion_return = OnionReturn.mk s.onion_symmetric_key ipp inner) :
    (∀ r, inner = some r →
      (s.handle_onion_response_1 p).res =
        Except.error "OnionResponse1 next_onion_return is some" ∧
      (s.handle_onion_response_1 p).udp = [] ∧
      (s.handle_onion_response_1 p).tcp = []) ∧
    (inner = none → ipp.protocol = ProtocolType.udp →
      ¬(s.is_ipv6_mode = false ∧ ipp.ip_addr.v6 = true) →
      (s.handle_onion_response_1 p).res = Except.ok () ∧
      (s.handle_onion_response_1 p).udp =
        [(p.payload.to_dht_packet,
          if s.is_ipv6_mode = true ∧ ipp.ip_addr.v6 = false then
            { ip := ipp.ip_addr.to_ipv6_mapped, port := ipp.port }
          else ipp.to_saddr)] ∧
      (s.handle_onion_response_1 p).tcp = []) ∧
    (inner = none → ipp.protocol = ProtocolType.udp →
      s.is_ipv6_mode = false → ipp.ip_addr.v6 = true →
      (s.handle_onion_response_1 p).res =
        Except.error
          "DHT node is running in ipv4 mode but target node socket is ipv6 address" ∧
      (s.handle_onion_response_1 p).udp = [] ∧
      (s.handle_onion_response_1 p).tcp = []) ∧
    (inner = none → ipp.protocol = ProtocolType.tcp → s.tcp_onion_sink = true →
      (s.handle_onion_response_1 p).res = Except.ok () ∧
      (s.handle_onion_response_1 p).udp = [] ∧
      (s.handle_onion_response_1 p).tcp = [(p.payload, ipp.to_saddr)]) ∧
    (inner = none → ipp.protocol = ProtocolType.tcp → s.tcp_onion_sink = false →
      (s.handle_onion_response_1 p).res =
        Except.error "OnionResponse1 cant be redirected to TCP relay" ∧
      (s.handle_onion_response_1 p).udp = [] ∧
      (s.handle_onion_response_1 p).tcp = []) := by
  refine ⟨?_, ?_, ?_, ?_, ?_⟩
  · intro r hr
    subst hr
    simp [Server.handle_onion_response_1, OnionReturn.get_payload, hdec]
  · intro hn hudp hcompat
    subst hn
    rcases p with ⟨ret, payload⟩
    cases payload <;>
      simp_all [Server.handle_onion_response_1, OnionReturn.get_payload,
        Server.send_to, IpPort.to_saddr, SocketAddr.is_ipv6,
        InnerOnionResponse.to_dht_packet, IpAddr.to_ipv6_mapped] <;>
      rcases hb : s.is_ipv6_mode <;> rcases hv : ipp.ip_addr.v6 <;>
      simp_all
  · intro hn hudp hmode hv
    subst hn
    rcases p with ⟨ret, payload⟩
    cases payload <;>
      simp_all [Server.handle_onion_response_1, OnionReturn.get_payload,
        Server.send_to, IpPort.to_saddr, SocketAddr.is_ipv6]
  · intro hn htcp hsink
    subst hn
    simp [Server.handle_onion_response_1, OnionReturn.get_payload, hdec,
      htcp, hsink]
  · intro hn htcp hsink
    subst hn
    simp [Server.handle_onion_response_1, OnionReturn.get_payload, hdec,
      htcp, hsink]

/-- OnionResponse1 under the current key of `base_server`, inner return
present. -/
def resp1_with_inner : OnionResponse1 :=
  { onion_return := OnionReturn.mk 11 (IpPort.from_udp_saddr addr4) (some stale_return),
    payload := InnerOnionResponse.OnionDataResponse 3 }

/-- OnionResponse1 under the current key, UDP, IPv4 recovered address. -/
def resp1_udp_v4 : OnionResponse1 :=
  { onion_return := OnionReturn.mk 11 (IpPort.from_udp_saddr addr4) none,
    payload := InnerOnionResponse.OnionAnnounceResponse 4 }

/-- OnionResponse1 under the current key, UDP, IPv6 recovered address. -/
def resp1_udp_v6 : OnionResponse1 :=
  { onion_return := OnionReturn.mk 11 (IpPort.from_udp_saddr addr6) none,
    payload := InnerOnionResponse.OnionDataResponse 5 }

/-- OnionResponse1 under the current key, TCP protocol marker. -/
def resp1_tcp : OnionResponse1 :=
  { onion_return :=
      OnionReturn.mk 11
        { protocol := ProtocolType.tcp, ip_addr := ip4a, port := 80 } none,
    payload := InnerOnionResponse.OnionDataResponse 6 }

/-- `base_server` with a TCP onion sink configured. -/
def sink_server : Server := { base_server with tcp_onion_sink := true }

/-- Witness for C9: all five branches at concrete inputs. -/
theorem handle_onion_response_1_branches_witness :
    ((base_server.handle_onion_response_1 resp1_with_inner).res =
       Except.error "OnionResponse1 next_onion_return is some" ∧
     (base_server.handle_onion_response_1 resp1_with_inner).udp = [] ∧
     (base_server.handle_onion_response_1 resp1_with_inner).tcp = []) ∧
    ((base_server.handle_onion_response_1 resp1_udp_v4).res = Except.ok () ∧
     (base_server.handle_onion_response_1 resp1_udp_v4).udp =
       [(DhtPacket.OnionAnnounceResponse 4, addr4)] ∧
     (base_server.handle_onion_response_1 resp1_udp_v4).tcp = []) ∧
    ((base_server.handle_onion_response_1 resp1_udp_v6).res =
       Except.error
         "DHT node is running in ipv4 mode but target node socket is ipv6 address" ∧
     (base_server.handle_onion_response_1 resp1_udp_v6).udp = [] ∧
     (base_server.handle_onion_response_1 resp1_udp_v6).tcp = []) ∧
    ((sink_server.handle_onion_response_1 resp1_tcp).res = Except.ok () ∧
     (sink_server.handle_onion_response_1 resp1_tcp).udp = [] ∧
     (sink_server.handle_onion_response_1 resp1_tcp).tcp =
       [(InnerOnionResponse.OnionDataResponse 6,
         { ip := ip4a, port := 80 })]) ∧
    ((base_server.handle_onion_response_1 resp1_tcp).res =
       Except.error "OnionResponse1 cant be redirected to TCP relay" ∧
     (base_server.handle_onion_response_1 resp1_tcp).udp = [] ∧
     (base_server.handle_onion_response_1 resp1_tcp).tcp = []) := by
  refine ⟨?_, ?_, ?_, ?_, ?_⟩
  · exact (handle_onion_response_1_branches base_server resp1_with_inner
      (IpPort.from_udp_saddr addr4) (some stale_return) rfl).1 stale_return rfl
  · have h := (handle_onion_response_1_branches base_server resp1_udp_v4
      (IpPort.from_udp_saddr addr4) none rfl).2.1 rfl rfl (by decide)
    simpa [resp1_udp_v4, InnerOnionResponse.to_dht_packet,
      IpPort.from_udp_saddr, IpPort.to_saddr, addr4] using h
  · exact (handle_onion_response_1_branches base_server resp1_udp_v6
      (IpPort.from_udp_saddr addr6) none rfl).2.2.1 rfl rfl rfl rfl
  · have h := (handle_onion_response_1_branches sink_server resp1_tcp
      { protocol := ProtocolType.tcp, ip_addr := ip4a, port := 80 } none
      rfl).2.2.2.1 rfl rfl rfl
    simpa [resp1_tcp, IpPort.to_saddr] using h
  · exact (handle_onion_response_1_branches base_server resp1_tcp
      { protocol := ProtocolType.tcp, ip_addr := ip4a, port := 80 } none
      rfl).2.2.2.2 rfl rfl rfl

/-- Counterexample to C9 as stated: an OnionResponse1 that decrypts under the
current key to a UDP address with no inner return is not sent to that address
when the address is IPv6 and the server runs in IPv4 mode — the handler
errors and emits nothing. -/
theorem onion_response_1_v6_in_v4_mode_cex :
    (base_server.handle_onion_response_1 resp1_udp_v6).res =
      Except.error
        "DHT node is running in ipv4 mode but target node socket is ipv6 address" ∧
    (base_server.handle_onion_response_1 resp1_udp_v6).udp = [] ∧
    (base_server.handle_onion_response_1 resp1_udp_v6).tcp = [] := by
  refine ⟨?_, ?_, ?_⟩ <;> rfl

end Tox

namespace Tox

/-! ## C4 — PingRequest round trip -/

/-- C4 (amended): a PingRequest whose payload decrypts with id `I` is
answered through `handle_packet` with a PingResponse whose encrypted payload
id is `I`, enqueued to the source address (rewritten to its IPv4-mapped IPv6
form when IPv6 mode is on and the source is IPv4) — unless IPv6 mode is off
and the source address is IPv6, in which case the handler returns the
address-family error and enqueues nothing. -/
theorem handle_ping_req_round_trip (s : Server) (p : PingRequest)
    (addr : SocketAddr) (now : Nat)
    (hdec : p.payload.key = precompute p.pk s.sk) :
    (¬(s.is_ipv6_mode = false ∧ addr.ip.v6 = true) →
      (s.handle_packet (DhtPacket.PingRequest p) addr now).res = Except.ok () ∧
      (s.handle_packet (DhtPacket.PingRequest p) addr now).udp =
        [(DhtPacket.PingResponse
            { pk := s.pk,
              payload := { key := precompute p.pk s.sk,
                           msg := { id := p.payload.msg.id } } },
          if s.is_ipv6_mode = true ∧ addr.ip.v6 = false then
            { ip := addr.ip.to_ipv6_mapped, port := addr.port }
          else addr)]) ∧
    (s.is_ipv6_mode = false → addr.ip.v6 = true →
      (s.handle_packet (DhtPacket.PingRequest p) addr now).res =
        Except.error
          "DHT node is running in ipv4 mode but target node socket is ipv6 address" ∧
      (s.handle_packet (DhtPacket.PingRequest p) addr now).udp = []) := by
  constructor
  · intro hcompat
    rcases hb : s.is_ipv6_mode <;> rcases hv : addr.ip.v6 <;>
      simp_all [Server.handle_packet, Server.handle_ping_req, Enc.open_with,
        Server.send_to, SocketAddr.is_ipv6, IpAddr.to_ipv6_mapped]
  · intro hmode hv
    simp_all [Server.handle_packet, Server.handle_ping_req, Enc.open_with,
      Server.send_to, SocketAddr.is_ipv6]

/-- A PingRequest from the peer with key 7, decryptable by `base_server`,
carrying the ping id 42. -/
def bob_ping_req : PingRequest :=
  { pk := 7, payload := { key := precompute 7 5, msg := { id := 42 } } }

/-- Witness for C4: both branches at concrete inputs. -/
theorem handle_ping_req_round_trip_witness :
    ((base_server.handle_packet (DhtPacket.PingRequest bob_ping_req) addr4 0).res =
       Except.ok () ∧
     (base_server.handle_packet (DhtPacket.PingRequest bob_ping_req) addr4 0).udp =
       [(DhtPacket.PingResponse
           { pk := 105, payload := { key := precompute 7 5, msg := { id := 42 } } },
         addr4)]) ∧
    ((base_server.handle_packet (DhtPacket.PingRequest bob_ping_req) addr6 0).res =
       Except.error
         "DHT node is running in ipv4 mode but target node socket is ipv6 address" ∧
     (base_server.handle_packet (DhtPacket.PingRequest bob_ping_req) addr6 0).udp =
       []) := by
  have h1 := (handle_ping_req_round_trip base_server bob_ping_req addr4 0 rfl).1
    (by decide)
  have h2 := (handle_ping_req_round_trip base_server bob_ping_req addr6 0 rfl).2
    rfl rfl
  refine ⟨⟨h1.1, ?_⟩, h2⟩
  rw [h1.2]
  rfl

/-- Counterexample to C4 as stated: the same decryptable PingRequest arriving
from an IPv6 source address while the server runs in IPv4 mode makes
`handle_packet` fail, and no PingResponse is enqueued. -/
theorem handle_ping_req_v6_source_cex :
    bob_ping_req.payload.key = precompute bob_ping_req.pk base_server.sk ∧
    (base_server.handle_packet (DhtPacket.PingRequest bob_ping_req) addr6 0).res =
      Except.error
        "DHT node is running in ipv4 mode but target node socket is ipv6 address" ∧
    (base_server.handle_packet (DhtPacket.PingRequest bob_ping_req) addr6 0).udp =
      [] := by
  refine ⟨rfl, ?_, ?_⟩ <;> rfl

end Tox

namespace Tox

/-! ## C1 — ping_id == 0 handling -/

/-- A request queue holding only the non-zero ids `new_ping_id` generates
never accepts the reserved id 0, and rejecting leaves the queue unchanged. -/
theorem check_ping_id_zero (q : RequestQueue) (pk : PublicKey) (now : Nat)
    (hwf : q.entries.all (fun e => e.id != 0) = true) :
    q.check_ping_id pk 0 now = (false, q) := by
  have hany : (q.entries.any
      (fun e => e.pk = pk && e.id = 0 && now - e.time ≤ q.timeout)) = false := by
    rw [List.any_eq_false]
    intro e he
    have hz := List.all_eq_true.mp hwf e he
    simp_all
  simp only [RequestQueue.check_ping_id, hany, Bool.false_eq_true, if_false]

/-- C1 (amended): among the five packet kinds carrying a ping id, only the
PingResponse, NodesResponse and NatPingResponse handlers reject id 0 (the
NodesResponse handler through the request-queue check, which never stores a
zero id); the PingRequest and NatPingRequest handlers do not treat 0
specially and reply echoing the zero id. -/
theorem ping_id_zero_behaviour (s : Server) (addr : SocketAddr) (now : Nat)
    (pq : PingRequest) (pr : PingResponse) (nr : NodesResponse)
    (dresp : DhtRequest) (dreq : DhtRequest)
    (hwf : s.request_queue.entries.all (fun e => e.id != 0) = true) :
    (pr.payload.key = precompute pr.pk s.sk → pr.payload.msg.id = 0 →
      (s.handle_packet (DhtPacket.PingResponse pr) addr now).res =
        Except.error "PingResponse.ping_id == 0" ∧
      (s.handle_packet (DhtPacket.PingResponse pr) addr now).udp = []) ∧
    (nr.payload.key = precompute nr.pk s.sk → nr.payload.msg.id = 0 →
      (s.handle_packet (DhtPacket.NodesResponse nr) addr now).res =
        Except.error "NodesResponse.ping_id does not match" ∧
      (s.handle_packet (DhtPacket.NodesResponse nr) addr now).udp = []) ∧
    (dresp.rpk = s.pk → dresp.payload.key = precompute dresp.spk s.sk →
      dresp.payload.msg = DhtRequestPayload.NatPingResponse { id := 0 } →
      ((s.handle_packet (DhtPacket.DhtRequest dresp) addr now).res =
          Except.error "Cant find friend" ∨
       (s.handle_packet (DhtPacket.DhtRequest dresp) addr now).res =
          Except.error "NodesResponse.ping_id == 0") ∧
      (s.handle_packet (DhtPacket.DhtRequest dresp) addr now).udp = []) ∧
    (pq.payload.key = precompute pq.pk s.sk → pq.payload.msg.id = 0 →
      ¬(s.is_ipv6_mode = false ∧ addr.ip.v6 = true) →
      (s.handle_packet (DhtPacket.PingRequest pq) addr now).res = Except.ok () ∧
      (s.handle_packet (DhtPacket.PingRequest pq) addr now).udp =
        [(DhtPacket.PingResponse
            { pk := s.pk,
              payload := { key := precompute pq.pk s.sk, msg := { id := 0 } } },
          if s.is_ipv6_mode = true ∧ addr.ip.v6 = false then
            { ip := addr.ip.to_ipv6_mapped, port := addr.port }
          else addr)]) ∧
    (dreq.rpk = s.pk → dreq.payload.key = precompute dreq.spk s.sk →
      dreq.payload.msg = DhtRequestPayload.NatPingRequest { id := 0 } →
      ¬(s.is_ipv6_mode = false ∧ addr.ip.v6 = true) →
      (s.handle_packet (DhtPacket.DhtRequest dreq) addr now).res = Except.ok () ∧
      (s.handle_packet (DhtPacket.DhtRequest dreq) addr now).udp =
        [(DhtPacket.DhtRequest
            { rpk := dreq.spk, spk := s.pk,
              payload := { key := precompute dreq.spk s.sk,
                           msg := DhtRequestPayload.NatPingResponse { id := 0 } } },
          if s.is_ipv6_mode = true ∧ addr.ip.v6 = false then
            { ip := addr.ip.to_ipv6_mapped, port := addr.port }
          else addr)]) := by
  refine ⟨?_, ?_, ?_, ?_, ?_⟩
  · intro hk hid
    simp [Server.handle_packet, Server.handle_ping_resp, Enc.open_with, hk, hid]
  · intro hk hid
    have hchk := check_ping_id_zero s.request_queue nr.pk now hwf
    simp [Server.handle_packet, Server.handle_nodes_resp, Enc.open_with, hk,
      hid, hchk]
  · intro hr hk hm
    rcases hf : s.friends.find? (fun f => f.pk = dresp.spk) with _ | friend
    · simp [Server.handle_packet, Server.handle_dht_req, hr, Enc.open_with,
        hk, hm, Server.handle_nat_ping_resp, hf]
    · simp [Server.handle_packet, Server.handle_dht_req, hr, Enc.open_with,
        hk, hm, Server.handle_nat_ping_resp, hf]
  · intro hk hid hcompat
    rcases hb : s.is_ipv6_mode <;> rcases hv : addr.ip.v6 <;>
      simp_all [Server.handle_packet, Server.handle_ping_req, Enc.open_with,
        Server.send_to, SocketAddr.is_ipv6, IpAddr.to_ipv6_mapped]
  · intro hr hk hm hcompat
    rcases hb : s.is_ipv6_mode <;> rcases hv : addr.ip.v6 <;>
      simp_all [Server.handle_packet, Server.handle_dht_req, Enc.open_with,
        Server.handle_nat_ping_req, Server.send_to, SocketAddr.is_ipv6,
        IpAddr.to_ipv6_mapped]

/-- A PingResponse with id 0 decryptable by `base_server`. -/
def zero_ping_resp : PingResponse :=
  { pk := 7, payload := { key := precompute 7 5, msg := { id := 0 } } }

/-- A NodesResponse with id 0 decryptable by `base_server`. -/
def zero_nodes_resp : NodesResponse :=
  { pk := 7, payload := { key := precompute 7 5, msg := { nodes := [], id := 0 } } }

/-- A NatPingResponse with id 0 wrapped in a DhtRequest addressed to
`base_server`. -/
def zero_nat_resp_req : DhtRequest :=
  { rpk := 105, spk := 7,
    payload := { key := precompute 7 5,
                 msg := DhtRequestPayload.NatPingResponse { id := 0 } } }

/-- A PingRequest with id 0 decryptable by `base_server`. -/
def zero_ping_req : PingRequest :=
  { pk := 7, payload := { key := precompute 7 5, msg := { id := 0 } } }

/-- A NatPingRequest with id 0 wrapped in a DhtRequest addressed to
`base_server`. -/
def zero_nat_ping_req : DhtRequest :=
  { rpk := 105, spk := 7,
    payload := { key := precompute 7 5,
                 msg := DhtRequestPayload.NatPingRequest { id := 0 } } }

/-- Witness for C1: all five packet kinds with id 0 at concrete inputs. -/
theorem ping_id_zero_behaviour_witness :
    ((base_server.handle_packet (DhtPacket.PingResponse zero_ping_resp) addr4 0).res =
       Except.error "PingResponse.ping_id == 0" ∧
     (base_server.handle_packet (DhtPacket.PingResponse zero_ping_resp) addr4 0).udp = []) ∧
    ((base_server.handle_packet (DhtPacket.NodesResponse zero_nodes_resp) addr4 0).res =
       Except.error "NodesResponse.ping_id does not match" ∧
     (base_server.handle_packet (DhtPacket.NodesResponse zero_nodes_resp) addr4 0).udp = []) ∧
    (((base_server.handle_packet (DhtPacket.DhtRequest zero_nat_resp_req) addr4 0).res =
        Except.error "Cant find friend" ∨
      (base_server.handle_packet (DhtPacket.DhtRequest zero_nat_resp_req) addr4 0).res =
        Except.error "NodesResponse.ping_id == 0") ∧
     (base_server.handle_packet (DhtPacket.DhtRequest zero_nat_resp_req) addr4 0).udp = []) ∧
    ((base_server.handle_packet (DhtPacket.PingRequest zero_ping_req) addr4 0).res =
       Except.ok () ∧
     (base_server.handle_packet (DhtPacket.PingRequest zero_ping_req) addr4 0).udp =
       [(DhtPacket.PingResponse
           { pk := 105, payload := { key := precompute 7 5, msg := { id := 0 } } },
         addr4)]) ∧
    ((base_server.handle_packet (DhtPacket.DhtRequest zero_nat_ping_req) addr4 0).res =
       Except.ok () ∧
     (base_server.handle_packet (DhtPacket.DhtRequest zero_nat_ping_req) addr4 0).udp =
       [(DhtPacket.DhtRequest
           { rpk := 7, spk := 105,
             payload := { key := precompute 7 5,
                          msg := DhtRequestPayload.NatPingResponse { id := 0 } } },
         addr4)]) := by
  have h := ping_id_zero_behaviour base_server addr4 0 zero_ping_req
    zero_ping_resp zero_nodes_resp zero_nat_resp_req zero_nat_ping_req rfl
  refine ⟨h.1 rfl rfl, h.2.1 rfl rfl, h.2.2.1 rfl rfl rfl, ?_, ?_⟩
  · have h4 := h.2.2.2.1 rfl rfl (by decide)
    refine ⟨h4.1, ?_⟩
    rw [h4.2]
    rfl
  · have h5 := h.2.2.2.2 rfl rfl rfl (by decide)
    refine ⟨h5.1, ?_⟩
    rw [h5.2]
    rfl

/-- Counterexample to C1 as stated: a PingRequest with ping id 0 that
decrypts successfully is handled without error and a PingResponse echoing the
zero id is enqueued. -/
theorem ping_req_zero_id_cex :
    (base_server.handle_packet (DhtPacket.PingRequest zero_ping_req) addr4 0).res =
      Except.ok () ∧
    (base_server.handle_packet (DhtPacket.PingRequest zero_ping_req) addr4 0).udp =
      [(DhtPacket.PingResponse
          { pk := 105, payload := { key := precompute 7 5, msg := { id := 0 } } },
        addr4)] := by
  refine ⟨?_, ?_⟩ <;> rfl

end Tox

namespace Tox

/-! ## C6 — NodesResponse: try_add on success, untouched state on failure -/

/-- The per-node update of `handle_nodes_resp` projects componentwise: the
combined fold over the returned nodes updates the close list, the bootstrap
bucket and the friends independently. -/
theorem server_fold_add_components (nodes : List PackedNode) :
    ∀ s : Server,
    (List.foldl (fun s n =>
        { s with close_nodes := (s.close_nodes.try_add n).1,
                 bootstrap_nodes := (s.bootstrap_nodes.try_add s.pk n).1,
                 friends := s.friends.map (fun f => f.add_to_close n) })
      s nodes).pk = s.pk ∧
    (List.foldl (fun s n =>
        { s with close_nodes := (s.close_nodes.try_add n).1,
                 bootstrap_nodes := (s.bootstrap_nodes.try_add s.pk n).1,
                 friends := s.friends.map (fun f => f.add_to_close n) })
      s nodes).close_nodes =
      List.foldl (fun kb n => (Kbucket.try_add kb n).1) s.close_nodes nodes ∧
    (List.foldl (fun s n =>
        { s with close_nodes := (s.close_nodes.try_add n).1,
                 bootstrap_nodes := (s.bootstrap_nodes.try_add s.pk n).1,
                 friends := s.friends.map (fun f => f.add_to_close n) })
      s nodes).bootstrap_nodes =
      List.foldl (fun b n => (Bucket.try_add b s.pk n).1) s.bootstrap_nodes nodes ∧
    (List.foldl (fun s n =>
        { s with close_nodes := (s.close_nodes.try_add n).1,
                 bootstrap_nodes := (s.bootstrap_nodes.try_add s.pk n).1,
                 friends := s.friends.map (fun f => f.add_to_close n) })
      s nodes).friends =
      List.foldl (fun fs n => fs.map (fun f => DhtFriend.add_to_close f n))
        s.friends nodes := by
  induction nodes with
  | nil => intro s; exact ⟨rfl, rfl, rfl, rfl⟩
  | cons n rest ih =>
    intro s
    simp only [List.foldl_cons]
    exact (ih _)

/-- C6: when the ping id of a decrypted NodesResponse passes the
request-queue check, every node of the payload is offered via `try_add` to
the close list, the bootstrap bucket and every friend close-nodes bucket (and
nothing is emitted); when the check fails the handler errors and those three
components are left unchanged. -/
theorem handle_nodes_resp_spec (s : Server) (nr : NodesResponse) (now : Nat)
    (hk : nr.payload.key = precompute nr.pk s.sk) :
    ((s.request_queue.check_ping_id nr.pk nr.payload.msg.id now).1 = false →
      (s.handle_nodes_resp nr now).res =
        Except.error "NodesResponse.ping_id does not match" ∧
      (s.handle_nodes_resp nr now).server.close_nodes = s.close_nodes ∧
      (s.handle_nodes_resp nr now).server.bootstrap_nodes = s.bootstrap_nodes ∧
      (s.handle_nodes_resp nr now).server.friends = s.friends ∧
      (s.handle_nodes_resp nr now).udp = []) ∧
    ((s.request_queue.check_ping_id nr.pk nr.payload.msg.id now).1 = true →
      (s.handle_nodes_resp nr now).res = Except.ok () ∧
      (s.handle_nodes_resp nr now).server.close_nodes =
        List.foldl (fun kb n => (Kbucket.try_add kb n).1) s.close_nodes
          nr.payload.msg.nodes ∧
      (s.handle_nodes_resp nr now).server.bootstrap_nodes =
        List.foldl (fun b n => (Bucket.try_add b s.pk n).1) s.bootstrap_nodes
          nr.payload.msg.nodes ∧
      (s.handle_nodes_resp nr now).server.friends =
        List.foldl (fun fs n => fs.map (fun f => DhtFriend.add_to_close f n))
          s.friends nr.payload.msg.nodes ∧
      (s.handle_nodes_resp nr now).udp = []) := by
  rcases hc : s.request_queue.check_ping_id nr.pk nr.payload.msg.id now with ⟨b, q⟩
  constructor
  · intro hfalse
    simp only at hfalse
    subst hfalse
    simp [Server.handle_nodes_resp, Enc.open_with, hk, hc]
  · intro htrue
    simp only at htrue
    subst htrue
    have hcomp := server_fold_add_components nr.payload.msg.nodes
      { s with request_queue := q }
    simp [Server.handle_nodes_resp, Enc.open_with, hk, hc]
    exact ⟨hcomp.2.1, hcomp.2.2.1, hcomp.2.2.2⟩

/-- A node record at key 8. -/
def pn8 : PackedNode := { saddr := addr4, pk := 8 }

/-- `base_server` with the request-queue entry `(7, 42)` issued at time 0. -/
def queued_server : Server :=
  { base_server with request_queue :=
      { timeout := PING_TIMEOUT, entries := [{ pk := 7, id := 42, time := 0 }] } }

/-- A NodesResponse from key 7 with id 42 carrying the node `pn8`. -/
def nodes_resp_42 : NodesResponse :=
  { pk := 7, payload := { key := precompute 7 5, msg := { nodes := [pn8], id := 42 } } }

/-- Witness for C6: the success case on a matching queue entry and the
failure case on an empty queue, at concrete inputs. -/
theorem handle_nodes_resp_spec_witness :
    ((queued_server.handle_nodes_resp nodes_resp_42 0).res = Except.ok () ∧
     (queued_server.handle_nodes_resp nodes_resp_42 0).server.close_nodes =
       List.foldl (fun kb n => (Kbucket.try_add kb n).1) queued_server.close_nodes
         [pn8] ∧
     (queued_server.handle_nodes_resp nodes_resp_42 0).udp = []) ∧
    ((base_server.handle_nodes_resp nodes_resp_42 0).res =
       Except.error "NodesResponse.ping_id does not match" ∧
     (base_server.handle_nodes_resp nodes_resp_42 0).server.close_nodes =
       base_server.close_nodes ∧
     (base_server.handle_nodes_resp nodes_resp_42 0).server.bootstrap_nodes =
       base_server.bootstrap_nodes ∧
     (base_server.handle_nodes_resp nodes_resp_42 0).server.friends =
       base_server.friends ∧
     (base_server.handle_nodes_resp nodes_resp_42 0).udp = []) := by
  have hsucc := (handle_nodes_resp_spec queued_server nodes_resp_42 0 rfl).2
    (by decide)
  have hfail := (handle_nodes_resp_spec base_server nodes_resp_42 0 rfl).1
    (by decide)
  exact ⟨⟨hsucc.1, hsucc.2.1, hsucc.2.2.2.2⟩, hfail⟩

end Tox

namespace Tox

/-! ## Bucket lemmas (towards C5) -/

/-- Sorted insertion adds exactly one element. -/
theorem bucket_insert_sorted_length (ref : PublicKey) (n : DhtNode) :
    ∀ l : List DhtNode, (bucket_insert_sorted ref n l).length = l.length + 1 := by
  intro l
  induction l with
  | nil => rfl
  | cons m rest ih =>
    unfold bucket_insert_sorted
    split
    · simp
    · simp [ih]

/-- Membership after sorted insertion: the new element or an old one. -/
theorem mem_bucket_insert_sorted (ref : PublicKey) (n d : DhtNode) :
    ∀ l : List DhtNode, d ∈ bucket_insert_sorted ref n l → d = n ∨ d ∈ l := by
  intro l
  induction l with
  | nil => simp [bucket_insert_sorted]
  | cons m rest ih =>
    unfold bucket_insert_sorted
    split
    · intro h
      simpa using (List.mem_cons.mp h)
    · intro h
      rcases List.mem_cons.mp h with h | h
      · exact Or.inr (h ▸ List.mem_cons_self m rest)
      · rcases ih h with h | h
        · exact Or.inl h
        · exact Or.inr (List.mem_cons_of_mem m h)

/-- `try_add` never changes the capacity. -/
theorem try_add_capacity (b : Bucket) (ref : PublicKey) (n : PackedNode) :
    ((b.try_add ref n).1).capacity = b.capacity := by
  unfold Bucket.try_add
  repeat' split
  all_goals rfl

/-- `try_add` keeps the node count within the capacity. -/
theorem try_add_length (b : Bucket) (ref : PublicKey) (n : PackedNode)
    (h : b.nodes.length ≤ b.capacity) :
    ((b.try_add ref n).1).nodes.length ≤ b.capacity := by
  unfold Bucket.try_add
  split
  · exact h
  split
  · simpa using h
  split
  · rename_i hlt
    simpa [bucket_insert_sorted_length] using hlt
  split
  · exact h
  split
  · rename_i heq hcl
    have hne : b.nodes ≠ [] := by
      intro he
      rw [he] at heq
      simp at heq
    have hpos : 0 < b.nodes.length := List.length_pos.mpr hne
    simp only [bucket_insert_sorted_length, List.length_dropLast]
    omega
  · exact h

/-- Every entry of a bucket after `try_add` is an old entry or carries the
added node record. -/
theorem try_add_provenance (b : Bucket) (ref : PublicKey) (n : PackedNode)
    (d : DhtNode) (hd : d ∈ ((b.try_add ref n).1).nodes) :
    d ∈ b.nodes ∨ d.to_packed = n := by
  unfold Bucket.try_add at hd
  split at hd
  · exact Or.inl hd
  split at hd
  · rcases List.mem_map.mp hd with ⟨d0, hd0, hmap⟩
    by_cases hpk : d0.pk = n.pk
    · right
      rw [← hmap]
      simp only [hpk, if_true, ite_true]
      rfl
    · left
      rw [← hmap]
      simp only [hpk, ite_false, if_false]
      exact hd0
  split at hd
  · rcases mem_bucket_insert_sorted _ _ _ _ hd with h | h
    · right
      rw [h]
      rfl
    · exact Or.inl h
  split at hd
  · exact Or.inl hd
  split at hd
  · rcases mem_bucket_insert_sorted _ _ _ _ hd with h | h
    · right
      rw [h]
      rfl
    · exact Or.inl (List.dropLast_subset _ h)
  · exact Or.inl hd

end Tox

namespace Tox

/-- Folding `try_add` over a list keeps the capacity and the capacity bound
on the node count. -/
theorem foldl_try_add_cap {α : Type} (ref : PublicKey) (g : α → PackedNode) :
    ∀ (l : List α) (b : Bucket),
      (List.foldl (fun b x => (Bucket.try_add b ref (g x)).1) b l).capacity =
        b.capacity ∧
      (b.nodes.length ≤ b.capacity →
        (List.foldl (fun b x => (Bucket.try_add b ref (g x)).1) b l).nodes.length ≤
          b.capacity) := by
  intro l
  induction l with
  | nil => intro b; exact ⟨rfl, fun h => h⟩
  | cons x rest ih =>
    intro b
    simp only [List.foldl_cons]
    obtain ⟨hc, hl⟩ := ih ((Bucket.try_add b ref (g x)).1)
    constructor
    · rw [hc, try_add_capacity]
    · intro h
      have h2 := hl (by rw [try_add_capacity]; exact try_add_length b ref (g x) h)
      rwa [try_add_capacity] at h2

/-- Folding `try_add` over a list only produces entries drawn from the
initial bucket or from the list. -/
theorem foldl_try_add_mem {α : Type} (ref : PublicKey) (g : α → PackedNode) :
    ∀ (l : List α) (b : Bucket) (d : DhtNode),
      d ∈ (List.foldl (fun b x => (Bucket.try_add b ref (g x)).1) b l).nodes →
      d ∈ b.nodes ∨ d.to_packed ∈ l.map g := by
  intro l
  induction l with
  | nil => intro b d hd; exact Or.inl hd
  | cons x rest ih =>
    intro b d hd
    simp only [List.foldl_cons] at hd
    rcases ih ((Bucket.try_add b ref (g x)).1) d hd with h | h
    · rcases try_add_provenance b ref (g x) d h with h2 | h2
      · exact Or.inl h2
      · exact Or.inr (by simp [h2])
    · exact Or.inr (by simp; right; simpa using h)

/-- The friends sweep of `handle_nodes_req` only produces entries drawn from
the accumulator or from some friend close-nodes bucket. -/
theorem friends_fold_mem (ref : PublicKey) :
    ∀ (fl : List DhtFriend) (b : Bucket) (d : DhtNode),
      d ∈ (List.foldl (fun b f => f.close_nodes.nodes.foldl
            (fun b n => (Bucket.try_add b ref n.to_packed).1) b) b fl).nodes →
      d ∈ b.nodes ∨
        ∃ f ∈ fl, d.to_packed ∈ f.close_nodes.nodes.map DhtNode.to_packed := by
  intro fl
  induction fl with
  | nil => intro b d hd; exact Or.inl hd
  | cons f rest ih =>
    intro b d hd
    simp only [List.foldl_cons] at hd
    rcases ih _ d hd with h | h
    · rcases foldl_try_add_mem ref DhtNode.to_packed f.close_nodes.nodes b d h with
        h2 | h2
      · exact Or.inl h2
      · exact Or.inr ⟨f, List.mem_cons_self f rest, h2⟩
    · rcases h with ⟨f2, hf2, hmem⟩
      exact Or.inr ⟨f2, List.mem_cons_of_mem f hf2, hmem⟩

/-- The friends sweep keeps the capacity and the capacity bound. -/
theorem friends_fold_cap (ref : PublicKey) :
    ∀ (fl : List DhtFriend) (b : Bucket),
      (List.foldl (fun b f => f.close_nodes.nodes.foldl
          (fun b n => (Bucket.try_add b ref n.to_packed).1) b) b fl).capacity =
        b.capacity ∧
      (b.nodes.length ≤ b.capacity →
        (List.foldl (fun b f => f.close_nodes.nodes.foldl
            (fun b n => (Bucket.try_add b ref n.to_packed).1) b) b fl).nodes.length ≤
          b.capacity) := by
  intro fl
  induction fl with
  | nil => intro b; exact ⟨rfl, fun h => h⟩
  | cons f rest ih =>
    intro b
    simp only [List.foldl_cons]
    obtain ⟨hc1, hl1⟩ := foldl_try_add_cap ref DhtNode.to_packed f.close_nodes.nodes b
    obtain ⟨hc2, hl2⟩ := ih (f.close_nodes.nodes.foldl
      (fun b n => (Bucket.try_add b ref n.to_packed).1) b)
    constructor
    · rw [hc2, hc1]
    · intro h
      have h2 := hl2 (by rw [hc1]; exact hl1 h)
      rwa [hc1] at h2

/-- Every node returned by `get_closest` is drawn from the close list. -/
theorem get_closest_subset (kb : Kbucket) (t : PublicKey) (g : Bool)
    (x : PackedNode) (hx : x ∈ kb.get_closest t g) :
    x ∈ kb.bucket.nodes.map DhtNode.to_packed := by
  unfold Kbucket.get_closest at hx
  have hx2 := List.take_subset 4 _ hx
  rcases List.mem_map.mp hx2 with ⟨d, hd, hdx⟩
  have hsorted :
      ∀ (l : List DhtNode) (acc : List DhtNode) (d : DhtNode),
        d ∈ List.foldl (fun acc d => bucket_insert_sorted t d acc) acc l →
        d ∈ acc ∨ d ∈ l := by
    intro l
    induction l with
    | nil => intro acc d hd; exact Or.inl hd
    | cons y rest ih =>
      intro acc d hd
      simp only [List.foldl_cons] at hd
      rcases ih _ d hd with h | h
      · rcases mem_bucket_insert_sorted t y d acc h with h2 | h2
        · exact Or.inr (by simp [h2])
        · exact Or.inl h2
      · exact Or.inr (List.mem_cons_of_mem y h)
  rcases hsorted _ [] d hd with h | h
  · simp at h
  · exact List.mem_map.mpr ⟨d, List.mem_of_mem_filter h, hdx⟩

end Tox

namespace Tox

/-! ## C5 — NodesRequest round trip -/

/-- The node collection `handle_nodes_req` assembles: at most 4 closest
nodes from the close list plus the friends close-nodes buckets, gathered in a
capacity-4 bucket ordered by distance to the requested key. -/
def collect_nodes (s : Server) (target : PublicKey) (only_global : Bool) :
    Bucket :=
  List.foldl (fun b f => f.close_nodes.nodes.foldl
      (fun b n => (Bucket.try_add b target n.to_packed).1) b)
    (List.foldl (fun b n => (Bucket.try_add b target n).1) (Bucket.new (some 4))
      (s.close_nodes.get_closest target only_global))
    s.friends

/-- The collection is capacity bounded. -/
theorem collect_nodes_length (s : Server) (target : PublicKey)
    (only_global : Bool) :
    (collect_nodes s target only_global).nodes.length ≤ 4 := by
  unfold collect_nodes
  have h1 := foldl_try_add_cap target (fun n => n)
    (s.close_nodes.get_closest target only_global) (Bucket.new (some 4))
  have h2 := friends_fold_cap target s.friends
    (List.foldl (fun b n => (Bucket.try_add b target n).1) (Bucket.new (some 4))
      (s.close_nodes.get_closest target only_global))
  have hstart : (Bucket.new (some 4)).nodes.length ≤ (Bucket.new (some 4)).capacity := by
    simp [Bucket.new]
  have hinner := h1.2 hstart
  have houter := h2.2 (by rw [h1.1]; exact hinner)
  rw [h1.1] at houter
  simpa [Bucket.new] using houter

/-- Every collected node is drawn from the routability-scoped `get_closest`
selection over the close list, or from a friend close-nodes bucket. -/
theorem collect_nodes_mem (s : Server) (target : PublicKey)
    (only_global : Bool) (d : DhtNode)
    (hd : d ∈ (collect_nodes s target only_global).nodes) :
    d.to_packed ∈ s.close_nodes.get_closest target only_global ∨
    ∃ f ∈ s.friends, d.to_packed ∈ f.close_nodes.nodes.map DhtNode.to_packed := by
  unfold collect_nodes at hd
  rcases friends_fold_mem target s.friends _ d hd with h | h
  · rcases foldl_try_add_mem target (fun n => n)
      (s.close_nodes.get_closest target only_global) (Bucket.new (some 4)) d h with
      h2 | h2
    · simp [Bucket.new] at h2
    · left
      simpa using h2
  · exact Or.inr h

/-- C5 (amended): a NodesRequest whose payload decrypts with id `I` is
answered through `handle_packet` with a NodesResponse addressed to the source
address (rewritten to its IPv4-mapped IPv6 form when IPv6 mode is on and the
source is IPv4), whose payload id equals `I` and whose node list holds at
most 4 nodes, every one drawn from the routability-scoped `get_closest`
selection over the close list or from a friend close-nodes bucket — unless
IPv6 mode is off and the source address is IPv6, in which case the handler
returns the address-family error and enqueues nothing. -/
theorem handle_nodes_req_spec (s : Server) (p : NodesRequest)
    (addr : SocketAddr) (now : Nat)
    (hdec : p.payload.key = precompute p.pk s.sk) :
    (¬(s.is_ipv6_mode = false ∧ addr.ip.v6 = true) →
      (s.handle_packet (DhtPacket.NodesRequest p) addr now).res = Except.ok () ∧
      ∃ resp : NodesResponse,
        (s.handle_packet (DhtPacket.NodesRequest p) addr now).udp =
          [(DhtPacket.NodesResponse resp,
            if s.is_ipv6_mode = true ∧ addr.ip.v6 = false then
              { ip := addr.ip.to_ipv6_mapped, port := addr.port }
            else addr)] ∧
        resp.payload.key = precompute p.pk s.sk ∧
        resp.payload.msg.id = p.payload.msg.id ∧
        resp.payload.msg.nodes.length ≤ 4 ∧
        (∀ n ∈ resp.payload.msg.nodes,
          n ∈ s.close_nodes.get_closest p.payload.msg.pk addr.ip.global ∨
          ∃ f ∈ s.friends, n ∈ f.close_nodes.nodes.map DhtNode.to_packed)) ∧
    (s.is_ipv6_mode = false → addr.ip.v6 = true →
      (s.handle_packet (DhtPacket.NodesRequest p) addr now).res =
        Except.error
          "DHT node is running in ipv4 mode but target node socket is ipv6 address" ∧
      (s.handle_packet (DhtPacket.NodesRequest p) addr now).udp = []) := by
  have hnodes :
      ∀ n ∈ (collect_nodes s p.payload.msg.pk addr.ip.global).nodes.map
          DhtNode.to_packed,
        n ∈ s.close_nodes.get_closest p.payload.msg.pk addr.ip.global ∨
        ∃ f ∈ s.friends, n ∈ f.close_nodes.nodes.map DhtNode.to_packed := by
    intro n hn
    rcases List.mem_map.mp hn with ⟨d, hd, hdn⟩
    rcases collect_nodes_mem s p.payload.msg.pk addr.ip.global d hd with h | h
    · exact Or.inl (hdn ▸ h)
    · exact Or.inr (hdn ▸ h)
  have hlen :
      ((collect_nodes s p.payload.msg.pk addr.ip.global).nodes.map
        DhtNode.to_packed).length ≤ 4 := by
    simpa using collect_nodes_length s p.payload.msg.pk addr.ip.global
  constructor
  · intro hcompat
    rcases hb : s.is_ipv6_mode with _ | _ <;> rcases hv : addr.ip.v6 with _ | _
    · refine ⟨?_, { pk := s.pk, payload :=
          { key := precompute p.pk s.sk,
            msg := { nodes := (collect_nodes s p.payload.msg.pk addr.ip.global).nodes.map
                       DhtNode.to_packed,
                     id := p.payload.msg.id } } }, ?_, rfl, rfl, hlen, hnodes⟩
      · simp [Server.handle_packet, Server.handle_nodes_req, Enc.open_with,
          hdec, Server.send_to, SocketAddr.is_ipv6, hb, hv]
      · simp [Server.handle_packet, Server.handle_nodes_req, Enc.open_with,
          hdec, Server.send_to, SocketAddr.is_ipv6, hb, hv, collect_nodes]
    · exact absurd ⟨hb, hv⟩ hcompat
    · refine ⟨?_, { pk := s.pk, payload :=
          { key := precompute p.pk s.sk,
            msg := { nodes := (collect_nodes s p.payload.msg.pk addr.ip.global).nodes.map
                       DhtNode.to_packed,
                     id := p.payload.msg.id } } }, ?_, rfl, rfl, hlen, hnodes⟩
      · simp [Server.handle_packet, Server.handle_nodes_req, Enc.open_with,
          hdec, Server.send_to, SocketAddr.is_ipv6, hb, hv]
      · simp [Server.handle_packet, Server.handle_nodes_req, Enc.open_with,
          hdec, Server.send_to, SocketAddr.is_ipv6, hb, hv, collect_nodes,
          IpAddr.to_ipv6_mapped]
    · refine ⟨?_, { pk := s.pk, payload :=
          { key := precompute p.pk s.sk,
            msg := { nodes := (collect_nodes s p.payload.msg.pk addr.ip.global).nodes.map
                       DhtNode.to_packed,
                     id := p.payload.msg.id } } }, ?_, rfl, rfl, hlen, hnodes⟩
      · simp [Server.handle_packet, Server.handle_nodes_req, Enc.open_with,
          hdec, Server.send_to, SocketAddr.is_ipv6, hb, hv]
      · simp [Server.handle_packet, Server.handle_nodes_req, Enc.open_with,
          hdec, Server.send_to, SocketAddr.is_ipv6, hb, hv, collect_nodes]
  · intro hmode hv
    simp [Server.handle_packet, Server.handle_nodes_req, Enc.open_with, hdec,
      Server.send_to, SocketAddr.is_ipv6, hmode, hv]

end Tox

namespace Tox

/-- A NodesRequest from the peer with key 7, decryptable by `base_server`,
searching for key 8 with ping id 42. -/
def bob_nodes_req : NodesRequest :=
  { pk := 7, payload := { key := precompute 7 5, msg := { pk := 8, id := 42 } } }

/-- Witness for C5: both branches at concrete inputs. -/
theorem handle_nodes_req_spec_witness :
    ((base_server.handle_packet (DhtPacket.NodesRequest bob_nodes_req) addr4 0).res =
       Except.ok () ∧
     ∃ resp : NodesResponse,
       (base_server.handle_packet (DhtPacket.NodesRequest bob_nodes_req) addr4 0).udp =
         [(DhtPacket.NodesResponse resp, addr4)] ∧
       resp.payload.key = precompute bob_nodes_req.pk base_server.sk ∧
       resp.payload.msg.id = bob_nodes_req.payload.msg.id ∧
       resp.payload.msg.nodes.length ≤ 4 ∧
       (∀ n ∈ resp.payload.msg.nodes,
         n ∈ base_server.close_nodes.get_closest bob_nodes_req.payload.msg.pk
               addr4.ip.global ∨
         ∃ f ∈ base_server.friends,
           n ∈ f.close_nodes.nodes.map DhtNode.to_packed)) ∧
    ((base_server.handle_packet (DhtPacket.NodesRequest bob_nodes_req) addr6 0).res =
       Except.error
         "DHT node is running in ipv4 mode but target node socket is ipv6 address" ∧
     (base_server.handle_packet (DhtPacket.NodesRequest bob_nodes_req) addr6 0).udp =
       []) :=
  ⟨(handle_nodes_req_spec base_server bob_nodes_req addr4 0 rfl).1 (by decide),
   (handle_nodes_req_spec base_server bob_nodes_req addr6 0 rfl).2 rfl rfl⟩

/-- Counterexample to C5 as stated: a decryptable NodesRequest arriving from
an IPv6 source while the server runs in IPv4 mode is not answered — the
handler errors and enqueues nothing. -/
theorem handle_nodes_req_v6_source_cex :
    bob_nodes_req.payload.key = precompute bob_nodes_req.pk base_server.sk ∧
    (base_server.handle_packet (DhtPacket.NodesRequest bob_nodes_req) addr6 0).res =
      Except.error
        "DHT node is running in ipv4 mode but target node socket is ipv6 address" ∧
    (base_server.handle_packet (DhtPacket.NodesRequest bob_nodes_req) addr6 0).udp =
      [] := by
  refine ⟨rfl, ?_, ?_⟩ <;> rfl

end Tox

namespace Tox

/-! ## C3 — periodic loop error aggregation -/

/-- The bootstrap ping sub-operation swallows its per-node send errors. -/
theorem ping_bootstrap_nodes_res (s : Server) (now : Nat) (rng : List Nat) :
    (s.ping_bootstrap_nodes now rng).res = Except.ok () := rfl

/-- The close-nodes ping sub-operation swallows its per-node send errors. -/
theorem ping_and_get_close_nodes_res (s : Server) (now : Nat) (rng : List Nat) :
    (s.ping_and_get_close_nodes now rng).res = Except.ok () := rfl

/-- The friends sub-operation swallows its per-friend errors. -/
theorem send_nodes_req_to_friends_res (s : Server) (now : Nat)
    (rng : List Nat) :
    (s.send_nodes_req_to_friends now rng).res = Except.ok () := rfl

/-- The ping-sender flush swallows its per-node send errors. -/
theorem send_pings_res (s : Server) (now : Nat) (rng : List Nat) :
    (s.send_pings now rng).res = Except.ok () := rfl

/-- The NAT ping sub-operation swallows its per-friend errors. -/
theorem send_nat_ping_req_res (s : Server) (now : Nat) (rng : List Nat) :
    (s.send_nat_ping_req now rng).res = Except.ok () := by
  unfold Server.send_nat_ping_req
  split
  · rfl
  · rfl

/-- `join_all` over the six sub-operation outcomes reduces to the only
unswallowed one. -/
theorem join_all_six (x : Except String Unit) :
    join_all [Except.ok (), Except.ok (), x, Except.ok (), Except.ok (),
      Except.ok ()] = x := by
  cases x with
  | ok u => cases u; rfl
  | error e => rfl

/-- C3 (amended): five of the six sub-operations of `dht_main_loop` swallow
their errors internally, so their futures always succeed; the random
NodesRequest sub-operation returns its send outcome unswallowed, and through
`future::join_all` the whole tick fails exactly when that sub-operation
fails.  All six sub-operations execute their state updates regardless. -/
theorem dht_main_loop_error_aggregation (s : Server) (now : Nat)
    (rng : List Nat) :
    (∀ (s2 : Server) (n2 : Nat) (r2 : List Nat),
      (s2.ping_bootstrap_nodes n2 r2).res = Except.ok ()) ∧
    (∀ (s2 : Server) (n2 : Nat) (r2 : List Nat),
      (s2.ping_and_get_close_nodes n2 r2).res = Except.ok ()) ∧
    (∀ (s2 : Server) (n2 : Nat) (r2 : List Nat),
      (s2.send_nodes_req_to_friends n2 r2).res = Except.ok ()) ∧
    (∀ (s2 : Server) (n2 : Nat) (r2 : List Nat),
      (s2.send_pings n2 r2).res = Except.ok ()) ∧
    (∀ (s2 : Server) (n2 : Nat) (r2 : List Nat),
      (s2.send_nat_ping_req n2 r2).res = Except.ok ()) ∧
    (s.dht_main_loop now rng).res =
      (let s0 : Server :=
        { s with request_queue := s.request_queue.clear_timed_out now }
       let sr := s0.refresh_onion_key now rng
       let r1 := sr.1.ping_bootstrap_nodes now sr.2
       let r2 := r1.server.ping_and_get_close_nodes now r1.rng
       (r2.server.send_nodes_req_random now r2.rng).res) := by
  refine ⟨ping_bootstrap_nodes_res, ping_and_get_close_nodes_res,
    send_nodes_req_to_friends_res, send_pings_res, send_nat_ping_req_res, ?_⟩
  unfold Server.dht_main_loop
  simp only [ping_bootstrap_nodes_res, ping_and_get_close_nodes_res,
    send_nodes_req_to_friends_res, send_pings_res, send_nat_ping_req_res,
    join_all_six]

end Tox

namespace Tox

/-- A server in IPv4 mode whose close list holds one good (recently
responding) node that is only reachable over IPv6, due for the random
NodesRequest. -/
def v6_close_server : Server :=
  { base_server with close_nodes :=
      { pk := 105, is_ipv6_mode := false,
        bucket := { capacity := 1024, nodes :=
          [{ pk := 8, saddr := addr6, last_resp_time_v4 := some 50,
             last_resp_time_v6 := none, last_ping_req_time := some 100 }] } } }

/-- Counterexample to C3 as stated: one tick of `dht_main_loop` on
`v6_close_server` fails (the random NodesRequest sub-operation picks the good
IPv6-only node and `send_to` rejects it in IPv4 mode, and `join_all`
propagates the error) even though the sub-operations executed — the bootstrap
round counter was still incremented. -/
theorem dht_main_loop_error_cex :
    (v6_close_server.dht_main_loop 100 [0, 9]).res =
      Except.error
        "DHT node is running in ipv4 mode but target node socket is ipv6 address" ∧
    (v6_close_server.dht_main_loop 100 [0, 9]).server.bootstrap_times =
      v6_close_server.bootstrap_times + 1 := by
  refine ⟨?_, ?_⟩ <;> rfl

end Tox

namespace Tox

/-! ## C7 — random NodesRequest step -/

/-- The good (non-bad) close-list entries, packed, as
`send_nodes_req_random` collects them. -/
def good_nodes_of (s : Server) (now : Nat) : List PackedNode :=
  (s.close_nodes.bucket.nodes.filter (fun n => !(n.is_bad now))).map
    DhtNode.to_packed

/-- C7 (amended): `send_nodes_req_random` is a no-op unless the last random
NodesRequest is at least `NODES_REQ_INTERVAL` old or fewer than
`MAX_BOOTSTRAP_TIMES` rounds have run, and the close list holds a good node;
in that case it draws `r = random_u32() mod |good|`, replaces a nonzero `r`
by `r - (random_u32() mod (r+1))`, targets the selected good node with a
NodesRequest for the owner key carrying a fresh ping id, increments the
bootstrap counter and stamps the time — the counter and stamp are updated
even when the selected node is IPv6-only in IPv4 mode, in which case the
request is not enqueued. -/
theorem send_nodes_req_random_spec (s : Server) (now : Nat) (rng : List Nat)
    (hown : ∀ d ∈ s.close_nodes.bucket.nodes, d.pk ≠ s.pk) :
    (now - s.last_nodes_req_time < NODES_REQ_INTERVAL →
      MAX_BOOTSTRAP_TIMES ≤ s.bootstrap_times →
      s.send_nodes_req_random now rng =
        { server := s, rng := rng, udp := [], res := Except.ok () }) ∧
    ((NODES_REQ_INTERVAL ≤ now - s.last_nodes_req_time ∨
        s.bootstrap_times < MAX_BOOTSTRAP_TIMES) →
      good_nodes_of s now = [] →
      s.send_nodes_req_random now rng =
        { server := s, rng := rng, udp := [], res := Except.ok () }) ∧
    ((NODES_REQ_INTERVAL ≤ now - s.last_nodes_req_time ∨
        s.bootstrap_times < MAX_BOOTSTRAP_TIMES) →
      good_nodes_of s now ≠ [] →
      (s.send_nodes_req_random now rng).server.bootstrap_times =
        s.bootstrap_times + 1 ∧
      (s.send_nodes_req_random now rng).server.last_nodes_req_time = now ∧
      (let r := (random_u32 rng).1 % (good_nodes_of s now).length
       let idx := if r ≠ 0 then r - (random_u32 (random_u32 rng).2).1 % (r + 1)
                  else r
       let rng2 := if r ≠ 0 then (random_u32 (random_u32 rng).2).2
                   else (random_u32 rng).2
       let node := (good_nodes_of s now).getD idx dummy_node
       (s.send_nodes_req_random now rng).udp =
         (if s.is_ipv6_mode = false ∧ node.saddr.ip.v6 = true then
            ([] : List (DhtPacket × SocketAddr))
          else
            [(DhtPacket.NodesRequest
                { pk := s.pk,
                  payload := { key := precompute node.pk s.sk,
                               msg := { pk := s.pk,
                                        id := (gen_ping_id rng2).1 } } },
              if s.is_ipv6_mode = true ∧ node.saddr.ip.v6 = false then
                { ip := node.saddr.ip.to_ipv6_mapped, port := node.saddr.port }
              else node.saddr)]))) := by
  refine ⟨?_, ?_, ?_⟩
  · intro hlt hge
    simp [Server.send_nodes_req_random, hlt, hge]
  · intro hcond hempty
    have hnand : ¬(now - s.last_nodes_req_time < NODES_REQ_INTERVAL ∧
        MAX_BOOTSTRAP_TIMES ≤ s.bootstrap_times) := by
      intro hand
      rcases hcond with h | h <;> omega
    unfold good_nodes_of at hempty
    simp [Server.send_nodes_req_random, hnand, hempty]
  · intro hcond hne
    have hnand : ¬(now - s.last_nodes_req_time < NODES_REQ_INTERVAL ∧
        MAX_BOOTSTRAP_TIMES ≤ s.bootstrap_times) := by
      intro hand
      rcases hcond with h | h <;> omega
    have hgbB : (decide (now - s.last_nodes_req_time < NODES_REQ_INTERVAL) &&
        decide (MAX_BOOTSTRAP_TIMES ≤ s.bootstrap_times)) = false := by
      simpa using hnand
    have hlen0 : 0 < (good_nodes_of s now).length := List.length_pos.mpr hne
    have hie : ((s.close_nodes.bucket.nodes.filter
        (fun n => !(n.is_bad now))).map DhtNode.to_packed).isEmpty = false := by
      simpa [List.isEmpty_eq_false, good_nodes_of] using hne
    have hmemD : ∀ i : Nat, i < (good_nodes_of s now).length →
        (good_nodes_of s now).getD i dummy_node ∈ good_nodes_of s now := by
      intro i hi
      rw [List.getD_eq_getD_get?, List.get?_eq_get hi]
      exact List.get_mem _ _ _
    have hpk : ∀ n ∈ good_nodes_of s now, n.pk ≠ s.pk := by
      intro n hn
      rcases List.mem_map.mp hn with ⟨d, hd, hdn⟩
      have hd2 := List.mem_of_mem_filter hd
      exact hdn ▸ hown d hd2
    have hr_lt : (random_u32 rng).1 % (good_nodes_of s now).length <
        (good_nodes_of s now).length := Nat.mod_lt _ hlen0
    have hidx_lt :
        (if (random_u32 rng).1 % (good_nodes_of s now).length ≠ 0 then
          (random_u32 rng).1 % (good_nodes_of s now).length -
            (random_u32 (random_u32 rng).2).1 %
              ((random_u32 rng).1 % (good_nodes_of s now).length + 1)
         else (random_u32 rng).1 % (good_nodes_of s now).length) <
        (good_nodes_of s now).length := by
      split <;> omega
    have hnode := hmemD _ hidx_lt
    have hps : ¬(s.pk =
        ((good_nodes_of s now).getD
          (if (random_u32 rng).1 % (good_nodes_of s now).length ≠ 0 then
            (random_u32 rng).1 % (good_nodes_of s now).length -
              (random_u32 (random_u32 rng).2).1 %
                ((random_u32 rng).1 % (good_nodes_of s now).length + 1)
           else (random_u32 rng).1 % (good_nodes_of s now).length)
          dummy_node).pk) := by
      intro h
      exact hpk _ hnode h.symm
    unfold good_nodes_of at hps hnode hlen0 hr_lt hidx_lt
    simp only [Server.send_nodes_req_random, hgbB, Bool.false_eq_true,
      if_false, hie]
    rcases hgen : gen_ping_id
        (if (random_u32 rng).1 %
            ((s.close_nodes.bucket.nodes.filter
              (fun n => !(n.is_bad now))).map DhtNode.to_packed).length ≠ 0 then
          (random_u32 (random_u32 rng).2).2
         else (random_u32 rng).2) with ⟨id0, rng0⟩
    by_cases hr0 : (random_u32 rng).1 %
        ((s.close_nodes.bucket.nodes.filter
          (fun n => !(n.is_bad now))).map DhtNode.to_packed).length = 0
    · simp only [hr0, ne_eq, not_true_eq_false, if_false, ite_false] at hgen hps hnode ⊢
      refine ⟨?_, ?_, ?_⟩
      · simp [RequestQueue.new_ping_id, hgen, Server.send_nodes_req, hps,
          good_nodes_of, hr0]
      · simp [RequestQueue.new_ping_id, hgen, Server.send_nodes_req, hps,
          good_nodes_of, hr0]
      · rcases hb : s.is_ipv6_mode with _ | _ <;>
          rcases hv : (((s.close_nodes.bucket.nodes.filter
            (fun n => !(n.is_bad now))).map DhtNode.to_packed).getD 0
            dummy_node).saddr.ip.v6 with _ | _ <;>
          simp_all [RequestQueue.new_ping_id, Server.send_nodes_req,
            Server.send_to, SocketAddr.is_ipv6, IpAddr.to_ipv6_mapped,
            good_nodes_of]
    · simp only [hr0, ne_eq, not_false_eq_true, if_true, ite_true] at hgen hps hnode ⊢
      refine ⟨?_, ?_, ?_⟩
      · simp [RequestQueue.new_ping_id, hgen, Server.send_nodes_req, hps,
          good_nodes_of, hr0]
      · simp [RequestQueue.new_ping_id, hgen, Server.send_nodes_req, hps,
          good_nodes_of, hr0]
      · rcases hb : s.is_ipv6_mode with _ | _ <;>
          rcases hv : (((s.close_nodes.bucket.nodes.filter
            (fun n => !(n.is_bad now))).map DhtNode.to_packed).getD
            ((random_u32 rng).1 %
              ((s.close_nodes.bucket.nodes.filter
                (fun n => !(n.is_bad now))).map DhtNode.to_packed).length -
              (random_u32 (random_u32 rng).2).1 %
                ((random_u32 rng).1 %
                  ((s.close_nodes.bucket.nodes.filter
                    (fun n => !(n.is_bad now))).map DhtNode.to_packed).length + 1))
            dummy_node).saddr.ip.v6 with _ | _ <;>
          simp_all [RequestQueue.new_ping_id, Server.send_nodes_req,
            Server.send_to, SocketAddr.is_ipv6, IpAddr.to_ipv6_mapped,
            good_nodes_of]

end Tox

namespace Tox

/-- `base_server` with all bootstrap rounds used and a recent random
NodesRequest. -/
def cooled_server : Server :=
  { base_server with bootstrap_times := 5, last_nodes_req_time := 90 }

/-- A server in IPv4 mode whose close list holds one good IPv4 node, due for
the random NodesRequest. -/
def v4_close_server : Server :=
  { base_server with close_nodes :=
      { pk := 105, is_ipv6_mode := false,
        bucket := { capacity := 1024, nodes :=
          [{ pk := 8, saddr := addr4, last_resp_time_v4 := some 50,
             last_resp_time_v6 := none, last_ping_req_time := some 100 }] } } }

/-- Witness for C7: the three branches at concrete inputs. -/
theorem send_nodes_req_random_spec_witness :
    (cooled_server.send_nodes_req_random 100 [0, 9] =
      { server := cooled_server, rng := [0, 9], udp := [],
        res := Except.ok () }) ∧
    (base_server.send_nodes_req_random 100 [0, 9] =
      { server := base_server, rng := [0, 9], udp := [],
        res := Except.ok () }) ∧
    ((v4_close_server.send_nodes_req_random 100 [0, 9]).server.bootstrap_times =
       v4_close_server.bootstrap_times + 1 ∧
     (v4_close_server.send_nodes_req_random 100 [0, 9]).server.last_nodes_req_time =
       100 ∧
     (v4_close_server.send_nodes_req_random 100 [0, 9]).udp =
       [(DhtPacket.NodesRequest
           { pk := 105,
             payload := { key := precompute 8 5, msg := { pk := 105, id := 9 } } },
         addr4)]) := by
  have h1 := (send_nodes_req_random_spec cooled_server 100 [0, 9]
    (by simp [cooled_server, base_server, Kbucket.new, Bucket.new])).1
    (by decide) (by decide)
  have h2 := (send_nodes_req_random_spec base_server 100 [0, 9]
    (by simp [base_server, Kbucket.new, Bucket.new])).2.1
    (Or.inr (by decide)) (by decide)
  have h3 := (send_nodes_req_random_spec v4_close_server 100 [0, 9]
    (by decide)).2.2 (Or.inl (by decide)) (by decide)
  refine ⟨h1, h2, h3.1, h3.2.1, ?_⟩
  have hu := h3.2.2
  simp only [good_nodes_of] at hu
  rw [hu]
  rfl

/-- Counterexample to C7 as stated: on `v6_close_server` (IPv4 mode, one
good IPv6-only close node) the trigger condition holds and a good node
exists, yet no NodesRequest is enqueued — while the bootstrap counter is
still incremented. -/
theorem send_nodes_req_random_no_send_cex :
    NODES_REQ_INTERVAL ≤ 100 - v6_close_server.last_nodes_req_time ∧
    good_nodes_of v6_close_server 100 ≠ [] ∧
    (v6_close_server.send_nodes_req_random 100 [0, 9]).udp = [] ∧
    (v6_close_server.send_nodes_req_random 100 [0, 9]).server.bootstrap_times =
      v6_close_server.bootstrap_times + 1 := by
  refine ⟨by decide, by decide, ?_, ?_⟩ <;> rfl

end Tox
